import Mathlib

/-!
# ConfigMap reconciliation of the Falcon container controller

Shallow embedding of `controllers/falcon_container/configmap.go`:
the two builders `newCABundleConfigMap` and `newConfigMap`, and the generic
convergence routine `reconcileGenericConfigMap` with its two entry points.

Conventions
* A Go `map[string]string` is a `StringMap` (association list with distinct
  keys); the order of the entries is the order in which `range` enumerates
  the map.  A possibly-nil map is a `GoMap`.
* A Go `error` is an `Option GoError` (`none` is `nil`).
* A function of Go type `(*ConfigMap, error)` that may also panic returns a
  `GoResult ConfigMap`.
* Collaborators living outside the file (cluster client, image lookup, CID
  resolver, base64 helpers, fixed names) are fields of
  `FalconContainerReconciler`; the cluster is an explicit state `σ`.
* An object handed to `r.Create` or `r.Update` is passed by pointer and
  overwritten by the client; a `WriteResult` carries the object as the call
  leaves it, and that is the object the reconcile functions return.
-/

namespace Falcon

/-! ## Go values -/

/-- A non-nil Go `map[string]string`. -/
abbrev StringMap := AList (fun _ : String => String)

/-- Equality of two maps is decided on their entry lists. -/
instance StringMap.decEq : DecidableEq StringMap := fun a b =>
  decidable_of_iff (a.entries = b.entries) AList.ext_iff.symm

/-- A Go `map[string]string` value: `none` is the nil map. -/
abbrev GoMap := Option StringMap

/-- Read `m[k]` with presence flag, on a possibly-nil map. -/
def GoMap.lookup (m : GoMap) (k : String) : Option String :=
  match m with
  | none => none
  | some a => a.lookup k

/-- The key set of a possibly-nil map (a nil map has no key). -/
def GoMap.keys (m : GoMap) : List String :=
  match m with
  | none => []
  | some a => a.keys

/-- A Go `error` value; `isNotFound` is what `errors.IsNotFound` answers. -/
structure GoError where
  message : String
  isNotFound : Bool
deriving DecidableEq, Repr

/-- Go `fmt.Errorf` with a `%v` verb: a fresh error that wraps nothing. -/
def Errorf (message : String) : GoError := ⟨message, false⟩

/-- Predicate `errors.IsNotFound`. -/
def IsNotFound (e : GoError) : Bool := e.isNotFound

/-- Outcome of a Go call of type `(*T, error)`: it returns both values, or panics. -/
inductive GoResult (α : Type) where
  | returned (value : α) (err : Option GoError)
  | panicked
deriving DecidableEq, Repr

/-- Go `strconv.Itoa`: the decimal rendering of an integer. -/
def Itoa (n : Int) : String := toString n

/-- Go `reflect.DeepEqual` on two `map[string]string` values: both nil or both
non-nil, same length, and every key of the first maps to the same value in the
second. -/
def DeepEqual : GoMap → GoMap → Bool
  | none, none => true
  | some a, some b =>
      a.entries.length == b.entries.length &&
        a.entries.all (fun e => b.lookup e.1 == some e.2)
  | _, _ => false

/-! ## Kubernetes objects -/

/-- Type `metav1.OwnerReference`. -/
structure OwnerReference where
  APIVersion : String
  Kind : String
  Name : String
  UID : String
  Controller : Option Bool
  BlockOwnerDeletion : Option Bool
deriving DecidableEq, Repr

/-- The group of `schema.ParseGroupVersion`: empty without a slash, the part
before the slash with one, an error (`none`) with more. -/
def parseGroup (gv : String) : Option String :=
  match (gv.data.filter (fun c => c = '/')).length with
  | 0 => some ""
  | 1 => some (String.mk (gv.data.takeWhile (fun c => c ≠ '/')))
  | _ => none

/-- Library predicate `referSameObject`: two owner references name the same
object when their API groups, kinds and names agree. -/
def referSameObject (a b : OwnerReference) : Bool :=
  match parseGroup a.APIVersion, parseGroup b.APIVersion with
  | some ga, some gb => ga == gb && a.Kind == b.Kind && a.Name == b.Name
  | _, _ => false

/-- Type `corev1.ConfigMap` (type meta, the object meta fields in use, data). -/
structure ConfigMap where
  APIVersion : String
  Kind : String
  Name : String
  Namespace : String
  Labels : GoMap
  OwnerReferences : List OwnerReference
  ResourceVersion : String
  Data : GoMap
deriving DecidableEq

/-- The zero value `&corev1.ConfigMap{}`. -/
def ConfigMap.zero : ConfigMap :=
  { APIVersion := "", Kind := "", Name := "", Namespace := "", Labels := none,
    OwnerReferences := [], ResourceVersion := "", Data := none }

/-- Type `types.NamespacedName`. -/
structure NamespacedName where
  Name : String
  Namespace : String
deriving DecidableEq, Repr

/-! ## The custom resource -/

/-- Type `corev1.Volume`, as far as this file is concerned an encodable payload. -/
structure Volume where
  Name : String
deriving DecidableEq, Repr

/-- Type `corev1.ResourceRequirements`, an encodable payload. -/
structure ResourceRequirements where
  Limits : List (String × String)
  Requests : List (String × String)
deriving DecidableEq, Repr

/-- Argument of `common.EncodeBase64Interface` (a Go `interface{}`), restricted
to the two dynamic types passed by this file. -/
inductive Payload where
  | volume (v : Volume)
  | resources (q : ResourceRequirements)
deriving DecidableEq, Repr

/-- Type `falcon.ApiConfig`: the API credentials handed to the CID resolver. -/
structure ApiConfig where
  ClientId : String
  ClientSecret : String
  Cloud : String
deriving DecidableEq, Repr

/-- Type `v1alpha1.FalconAPI`: the API based CID resolution block. -/
structure FalconAPI where
  CID : Option String
  ClientId : String
  ClientSecret : String
  CloudRegion : String
deriving DecidableEq, Repr

/-- Modelled from the spec: `FalconAPI.ApiConfig()` is declared outside the
file; it packs the API credentials of the block for the resolver. -/
def FalconAPI.ApiConfig (a : FalconAPI) : ApiConfig :=
  ⟨a.ClientId, a.ClientSecret, a.CloudRegion⟩

/-- Type `v1alpha1.FalconSensor`: the inline CID and the remaining generic sensor
settings, which only `common.MakeSensorEnvMap` reads. -/
structure FalconSensor where
  CID : Option String
  Settings : List (String × String)
deriving DecidableEq, Repr

/-- The injector block of the spec. -/
structure FalconContainerInjectorSpec where
  ListenPort : Option Int
  ImagePullPolicy : String
  ImagePullSecretName : String
  DisableDefaultPodInjection : Bool
  LogVolume : Option Volume
  SensorResources : Option ResourceRequirements
  AdditionalEnvironmentVariables : Option StringMap

/-- The block `Spec.Registry.TLS`. -/
structure RegistryTLSSpec where
  CACertificate : String
deriving DecidableEq, Repr

/-- The block `Spec.Registry`. -/
structure RegistrySpec where
  TLS : RegistryTLSSpec
deriving DecidableEq, Repr

/-- Type `v1alpha1.FalconContainerSpec`. -/
structure FalconContainerSpec where
  Falcon : FalconSensor
  FalconAPI : Option FalconAPI
  Injector : FalconContainerInjectorSpec
  Registry : RegistrySpec

/-- Type `v1alpha1.FalconContainer`: the owner of the generated objects. -/
structure FalconContainer where
  Name : String
  UID : String
  Spec : FalconContainerSpec

/-! ## The reconciler and its collaborators -/

/-- What a write call on the cluster does: the cluster after the call, the
object handed to it as the call leaves it (the client overwrites it with the
answer of the server), and the error. -/
structure WriteResult (σ : Type) where
  cluster : σ
  obj : ConfigMap
  err : Option GoError

/-- The receiver `*FalconContainerReconciler` together with everything the file
uses but does not define.  `σ` is the state of the cluster behind `r.Client`. -/
structure FalconContainerReconciler (σ : Type) where
  /-- Method `r.Namespace()`: the namespace the controller operates in. -/
  Namespace : String
  /-- The fixed name of the CA bundle document. -/
  registryCABundleConfigMapName : String
  /-- The fixed name of the injector configuration document. -/
  injectorConfigMapName : String
  /-- The fixed label set `FcLabels`. -/
  FcLabels : GoMap
  /-- Helper `common.MakeSensorEnvMap`; it returns an allocated map. -/
  MakeSensorEnvMap : FalconSensor → StringMap
  /-- Method `r.imageUri`. -/
  imageUri : FalconContainer → Except GoError String
  /-- Helper `falcon_api.FalconCID`: the network call resolving the customer id. -/
  FalconCID : Option String → ApiConfig → Except GoError String
  /-- Helper `common.EncodeBase64Interface`. -/
  EncodeBase64Interface : Payload → Except GoError String
  /-- Helper `common.DecodeBase64Interface`, its bytes read as a string. -/
  DecodeBase64Interface : String → String
  /-- Go `strings.ToUpper`. -/
  ToUpper : String → String
  /-- The validation and scheme lookup done by `ctrl.SetControllerReference`:
  the reference to attach, or the reason it cannot be attached. -/
  controllerReference : FalconContainer → ConfigMap → Except GoError OwnerReference
  /-- Method `r.Client.Get`: the object, or the error of the read. -/
  Get : σ → NamespacedName → Except GoError ConfigMap
  /-- Method `r.Create`, handed the object by pointer. -/
  Create : σ → ConfigMap → WriteResult σ
  /-- Method `r.Update`, handed the object by pointer. -/
  Update : σ → ConfigMap → WriteResult σ

/-- Library helper `upsertOwnerRef`: replace the first reference to the same
object, or append the reference when there is none. -/
def upsertOwnerRef (ref : OwnerReference) : List OwnerReference → List OwnerReference
  | [] => [ref]
  | o :: rest =>
      if referSameObject o ref then ref :: rest
      else o :: upsertOwnerRef ref rest

/-- Library call `ctrl.SetControllerReference`: it sets the owning controller
relation on the target and touches nothing else; on failure the target is left
as it was. -/
def SetControllerReference {σ : Type} (r : FalconContainerReconciler σ)
    (owner : FalconContainer) (cm : ConfigMap) : Except GoError ConfigMap :=
  match r.controllerReference owner cm with
  | .error e => .error e
  | .ok ref => .ok { cm with OwnerReferences := upsertOwnerRef ref cm.OwnerReferences }

/-! ## The builders -/

/-- Builder `newCABundleConfigMap` (lines 53-71). -/
def newCABundleConfigMap {σ : Type} (r : FalconContainerReconciler σ)
    (falconContainer : FalconContainer) : GoResult ConfigMap :=
  let data : StringMap := ∅
  if falconContainer.Spec.Registry.TLS.CACertificate ≠ "" then
    let data := data.insert "tls.crt"
      (r.DecodeBase64Interface falconContainer.Spec.Registry.TLS.CACertificate)
    .returned
      { APIVersion := "v1", Kind := "ConfigMap",
        Name := r.registryCABundleConfigMapName, Namespace := r.Namespace,
        Labels := r.FcLabels, OwnerReferences := [], ResourceVersion := "",
        Data := some data }
      none
  else
    .returned ConfigMap.zero
      (some (Errorf "unable to determine contents of Registry TLS CACertificate attribute"))

/-- One invocation of `falcon_api.FalconCID`, with its arguments. -/
structure ResolverCall where
  cid : Option String
  config : ApiConfig
deriving DecidableEq, Repr

/-- A run of `newConfigMap`: what it returned, and the resolver calls it made. -/
structure BuildRun where
  result : GoResult ConfigMap
  resolverCalls : List ResolverCall

/-- The loop `for k, v := range env { data[strings.ToUpper(k)] = v }`, the
entries taken in the order of enumeration. -/
def applyOverrides (toUpper : String → String) (env : StringMap) (data : StringMap) :
    StringMap :=
  env.entries.foldl (fun d e => d.insert (toUpper e.1) e.2) data

/-- Builder `newConfigMap` (lines 73-142). -/
def newConfigMap {σ : Type} (r : FalconContainerReconciler σ)
    (falconContainer : FalconContainer) : BuildRun :=
  let data := r.MakeSensorEnvMap falconContainer.Spec.Falcon
  let data := data.insert "CP_NAMESPACE" r.Namespace
  match falconContainer.Spec.Injector.ListenPort with
  | none => ⟨.panicked, []⟩
  | some listenPort =>
    let data := data.insert "FALCON_INJECTOR_LISTEN_PORT" (Itoa listenPort)
    let data :=
      match r.imageUri falconContainer with
      | .error _ => data
      | .ok imageUri => data.insert "FALCON_IMAGE" imageUri
    let data := data.insert "FALCON_IMAGE_PULL_POLICY"
      falconContainer.Spec.Injector.ImagePullPolicy
    let data := data.insert "FALCON_IMAGE_PULL_SECRET"
      falconContainer.Spec.Injector.ImagePullSecretName
    let data :=
      if falconContainer.Spec.Injector.DisableDefaultPodInjection then
        data.insert "INJECTION_DEFAULT_DISABLED" "T"
      else data
    let cid :=
      match falconContainer.Spec.Falcon.CID with
      | some c => c
      | none => ""
    let finish (cid : String) (calls : List ResolverCall) : BuildRun :=
      let data := data.insert "FALCONCTL_OPT_CID" cid
      let data :=
        match falconContainer.Spec.Injector.LogVolume with
        | none => data
        | some logVolume =>
          match r.EncodeBase64Interface (.volume logVolume) with
          | .error _ => data
          | .ok vol => data.insert "FALCON_LOG_VOLUME" vol
      let data :=
        match falconContainer.Spec.Injector.SensorResources with
        | none => data
        | some sensorResources =>
          match r.EncodeBase64Interface (.resources sensorResources) with
          | .error _ => data
          | .ok resources => data.insert "FALCON_RESOURCES" resources
      let data :=
        match falconContainer.Spec.Injector.AdditionalEnvironmentVariables with
        | none => data
        | some env => applyOverrides r.ToUpper env data
      ⟨.returned
        { APIVersion := "v1", Kind := "ConfigMap",
          Name := r.injectorConfigMapName, Namespace := r.Namespace,
          Labels := r.FcLabels, OwnerReferences := [], ResourceVersion := "",
          Data := some data }
        none, calls⟩
    match falconContainer.Spec.FalconAPI with
    | some api =>
      if cid = "" then
        match r.FalconCID api.CID api.ApiConfig with
        | .error err =>
          ⟨.returned ConfigMap.zero
            (some (Errorf ("unable to determine Falcon customer ID (CID): " ++ err.message))),
            [⟨api.CID, api.ApiConfig⟩]⟩
        | .ok resolved => finish resolved [⟨api.CID, api.ApiConfig⟩]
      else finish cid []
    | none => finish cid []

/-! ## Reconciliation -/

/-- A write issued to the cluster, with the object submitted. -/
inductive WriteCall where
  | Create (obj : ConfigMap)
  | Update (obj : ConfigMap)
deriving DecidableEq

/-- The object submitted by a write. -/
def WriteCall.obj : WriteCall → ConfigMap
  | .Create o => o
  | .Update o => o

/-- A run of a reconcile function: what it returned (for a write, the object
handed to the call as the call left it), the writes it issued in order, and the
cluster state it left. -/
structure Run (σ : Type) where
  result : GoResult ConfigMap
  writes : List WriteCall
  cluster : σ

/-- Routine `reconcileGenericConfigMap` (lines 29-51). -/
def reconcileGenericConfigMap {σ : Type} (r : FalconContainerReconciler σ)
    (name : String) (genFunc : FalconContainer → GoResult ConfigMap)
    (falconContainer : FalconContainer) (s : σ) : Run σ :=
  match genFunc falconContainer with
  | .panicked => ⟨.panicked, [], s⟩
  | .returned configMap (some err) =>
    ⟨.returned configMap
      (some (Errorf ("unable to render expected configmap: " ++ err.message))), [], s⟩
  | .returned configMap none =>
    match r.Get s ⟨name, r.Namespace⟩ with
    | .error err =>
      if IsNotFound err then
        match SetControllerReference r falconContainer configMap with
        | .error err =>
          ⟨.returned ConfigMap.zero
            (some (Errorf ("unable to set controller reference on config map " ++
              configMap.Name ++ ": " ++ err.message))), [], s⟩
        | .ok configMap =>
          ⟨.returned (r.Create s configMap).obj (r.Create s configMap).err,
            [.Create configMap], (r.Create s configMap).cluster⟩
      else
        ⟨.returned ConfigMap.zero
          (some (Errorf ("unable to query existing config map " ++ name ++ ": " ++
            err.message))), [], s⟩
    | .ok existingConfigMap =>
      if DeepEqual configMap.Data existingConfigMap.Data then
        ⟨.returned existingConfigMap none, [], s⟩
      else
        let existingConfigMap := { existingConfigMap with Data := configMap.Data }
        ⟨.returned (r.Update s existingConfigMap).obj (r.Update s existingConfigMap).err,
          [.Update existingConfigMap], (r.Update s existingConfigMap).cluster⟩

/-- Entry point `reconcileRegistryCABundleConfigMap` (lines 21-23). -/
def reconcileRegistryCABundleConfigMap {σ : Type} (r : FalconContainerReconciler σ)
    (falconContainer : FalconContainer) (s : σ) : Run σ :=
  reconcileGenericConfigMap r r.registryCABundleConfigMapName (newCABundleConfigMap r)
    falconContainer s

/-- Entry point `reconcileConfigMap` (lines 25-27). -/
def reconcileConfigMap {σ : Type} (r : FalconContainerReconciler σ)
    (falconContainer : FalconContainer) (s : σ) : Run σ :=
  reconcileGenericConfigMap r r.injectorConfigMapName
    (fun fc => (newConfigMap r fc).result) falconContainer s

/-! ## The stages of `newConfigMap`

The same statements as in `newConfigMap`, cut at the resolution of the customer
id; the lemmas `newConfigMap_inline` and `newConfigMap_resolved` relate them to
the builder. -/

/-- The entries of the document set before the customer id is resolved. -/
def dataBeforeCID {σ : Type} (r : FalconContainerReconciler σ) (fc : FalconContainer)
    (listenPort : Int) : StringMap :=
  let data := ((r.MakeSensorEnvMap fc.Spec.Falcon).insert "CP_NAMESPACE" r.Namespace).insert
    "FALCON_INJECTOR_LISTEN_PORT" (Itoa listenPort)
  let data :=
    match r.imageUri fc with
    | .error _ => data
    | .ok imageUri => data.insert "FALCON_IMAGE" imageUri
  let data := (data.insert "FALCON_IMAGE_PULL_POLICY" fc.Spec.Injector.ImagePullPolicy).insert
    "FALCON_IMAGE_PULL_SECRET" fc.Spec.Injector.ImagePullSecretName
  if fc.Spec.Injector.DisableDefaultPodInjection then
    data.insert "INJECTION_DEFAULT_DISABLED" "T"
  else data

/-- The entries of the document set from the customer id on, before the overrides. -/
def dataBeforeOverrides {σ : Type} (r : FalconContainerReconciler σ) (fc : FalconContainer)
    (listenPort : Int) (cid : String) : StringMap :=
  let data := (dataBeforeCID r fc listenPort).insert "FALCONCTL_OPT_CID" cid
  let data :=
    match fc.Spec.Injector.LogVolume with
    | none => data
    | some logVolume =>
      match r.EncodeBase64Interface (.volume logVolume) with
      | .error _ => data
      | .ok vol => data.insert "FALCON_LOG_VOLUME" vol
  match fc.Spec.Injector.SensorResources with
  | none => data
  | some sensorResources =>
    match r.EncodeBase64Interface (.resources sensorResources) with
    | .error _ => data
    | .ok resources => data.insert "FALCON_RESOURCES" resources

/-- The document of a successful build with the given customer id. -/
def documentWithCID {σ : Type} (r : FalconContainerReconciler σ) (fc : FalconContainer)
    (listenPort : Int) (cid : String) : StringMap :=
  match fc.Spec.Injector.AdditionalEnvironmentVariables with
  | none => dataBeforeOverrides r fc listenPort cid
  | some env => applyOverrides r.ToUpper env (dataBeforeOverrides r fc listenPort cid)

/-- The object of a successful build with the given customer id. -/
def configMapWithCID {σ : Type} (r : FalconContainerReconciler σ) (fc : FalconContainer)
    (listenPort : Int) (cid : String) : ConfigMap :=
  { APIVersion := "v1", Kind := "ConfigMap", Name := r.injectorConfigMapName,
    Namespace := r.Namespace, Labels := r.FcLabels, OwnerReferences := [],
    ResourceVersion := "", Data := some (documentWithCID r fc listenPort cid) }

/-- The customer id as it stands before the resolver is considered. -/
def inlineCID (fc : FalconContainer) : String :=
  match fc.Spec.Falcon.CID with
  | some c => c
  | none => ""

/-- The customer id of the document: the inline one, or the answer of the
resolver when the inline one is empty and a resolver block is configured. -/
def resolveCID {σ : Type} (r : FalconContainerReconciler σ) (fc : FalconContainer) :
    Except GoError String :=
  match fc.Spec.FalconAPI with
  | some api =>
    if inlineCID fc = "" then r.FalconCID api.CID api.ApiConfig else .ok (inlineCID fc)
  | none => .ok (inlineCID fc)

/-- No additional-environment-variable override is written to the key. -/
def NotOverridden {σ : Type} (r : FalconContainerReconciler σ) (fc : FalconContainer)
    (key : String) : Prop :=
  ∀ env, fc.Spec.Injector.AdditionalEnvironmentVariables = some env →
    ∀ k ∈ env.keys, r.ToUpper k ≠ key

/-- Neither the seed sensor environment map nor an override supplies the key. -/
def NotSupplied {σ : Type} (r : FalconContainerReconciler σ) (fc : FalconContainer)
    (key : String) : Prop :=
  (r.MakeSensorEnvMap fc.Spec.Falcon).lookup key = none ∧ NotOverridden r fc key

/-! ## Observing results -/

/-- The call returned with a nil error. -/
def GoResult.succeeded {α : Type} : GoResult α → Bool
  | .returned _ none => true
  | _ => false

/-- The call returned with a non-nil error. -/
def GoResult.failed {α : Type} : GoResult α → Bool
  | .returned _ (some _) => true
  | _ => false

/-- The document of the object returned by a successful call (nil otherwise). -/
def GoResult.document : GoResult ConfigMap → GoMap
  | .returned cm none => cm.Data
  | _ => none

/-- An in-memory cluster: the stored objects. -/
abbrev Store := List ConfigMap

/-- Whether an object is the one stored under a key. -/
def hasKey (k : NamespacedName) (o : ConfigMap) : Bool :=
  o.Name == k.Name && o.Namespace == k.Namespace

/-- A read of the in-memory cluster: the stored object, or a not-found error. -/
def Store.get (s : Store) (k : NamespacedName) : Except GoError ConfigMap :=
  match s.find? (hasKey k) with
  | some o => .ok o
  | none => .error ⟨"configmaps \"" ++ k.Name ++ "\" not found", true⟩

/-- The number a decimal version string stands for. -/
def decimalValue (v : String) : Nat :=
  v.data.foldl (fun n c => 10 * n + (c.toNat - 48)) 0

/-- The version after a version. -/
def nextVersion (v : String) : String := toString (decimalValue v + 1)

/-- A create on the in-memory cluster: refused when the name is taken;
otherwise the object is stored with version `1` and written back so. -/
def Store.create (s : Store) (o : ConfigMap) : WriteResult Store :=
  if s.any (hasKey ⟨o.Name, o.Namespace⟩) then
    ⟨s, o, some ⟨"configmaps \"" ++ o.Name ++ "\" already exists", false⟩⟩
  else ⟨{ o with ResourceVersion := "1" } :: s, { o with ResourceVersion := "1" }, none⟩

/-- An update on the in-memory cluster: refused when the name is unknown;
otherwise the object is stored with the next version and written back so. -/
def Store.update (s : Store) (o : ConfigMap) : WriteResult Store :=
  if s.any (hasKey ⟨o.Name, o.Namespace⟩) then
    ⟨s.map (fun x =>
        if hasKey ⟨o.Name, o.Namespace⟩ x then
          { o with ResourceVersion := nextVersion o.ResourceVersion }
        else x),
      { o with ResourceVersion := nextVersion o.ResourceVersion }, none⟩
  else ⟨s, o, some ⟨"configmaps \"" ++ o.Name ++ "\" not found", true⟩⟩

/-- Upper-casing of the ASCII letters, on which it agrees with `strings.ToUpper`. -/
def asciiUpper (s : String) : String := String.mk (s.data.map Char.toUpper)

/-- Value of a character of the standard base64 alphabet. -/
def base64Value (c : Char) : Option Nat :=
  let n := c.toNat
  if 65 ≤ n ∧ n ≤ 90 then some (n - 65)
  else if 97 ≤ n ∧ n ≤ 122 then some (n - 71)
  else if 48 ≤ n ∧ n ≤ 57 then some (n + 4)
  else if n = 43 then some 62
  else if n = 47 then some 63
  else none

/-- Standard padded base64 decoding of a character sequence into bytes. -/
def base64DecodeChars : List Char → Option (List Nat)
  | [] => some []
  | a :: b :: c :: d :: rest =>
    match base64Value a, base64Value b with
    | some x, some y =>
      if c = '=' ∧ d = '=' ∧ rest = [] then some [(x * 64 + y) / 16]
      else
        match base64Value c with
        | none => none
        | some z =>
          if d = '=' ∧ rest = [] then
            let n := (x * 64 + y) * 64 + z
            some [n / 1024, n / 4 % 256]
          else
            match base64Value d, base64DecodeChars rest with
            | some w, some tail =>
              let n := ((x * 64 + y) * 64 + z) * 64 + w
              some (n / 65536 :: n / 256 % 256 :: n % 256 :: tail)
            | _, _ => none
    | _, _ => none
  | _ => none

/-- Standard base64 decoding of a string, the bytes read back as a string. -/
def base64Decode (s : String) : Option String :=
  (base64DecodeChars s.data).map (fun bytes => String.mk (bytes.map Char.ofNat))

/-- A reconciler over the in-memory cluster, with fixed collaborator answers:
the resolver echoes a configured CID hint and is unreachable otherwise, and
volumes named `"bad"` fail to encode. -/
def sampleReconciler : FalconContainerReconciler Store where
  Namespace := "falcon-system"
  registryCABundleConfigMapName := "falcon-registry-certs"
  injectorConfigMapName := "falcon-injector-config"
  FcLabels := some (AList.singleton "crowdstrike.com/provider" "crowdstrike")
  MakeSensorEnvMap := fun sensor =>
    match sensor.CID with
    | some c => AList.singleton "FALCONCTL_OPT_CID" c
    | none => ∅
  imageUri := fun _ => .ok "registry.example/falcon-container:latest"
  FalconCID := fun cid _ =>
    match cid with
    | some c => .ok c
    | none => .error ⟨"falcon api unreachable", false⟩
  EncodeBase64Interface := fun p =>
    match p with
    | .volume v => if v.Name = "bad" then .error ⟨"cannot encode", false⟩ else .ok "dm9s"
    | .resources _ => .ok "cmVz"
  DecodeBase64Interface := fun c => (base64Decode c).getD ""
  ToUpper := asciiUpper
  controllerReference := fun owner _ =>
    .ok ⟨"falcon.crowdstrike.com/v1alpha1", "FalconContainer", owner.Name, owner.UID,
      some true, some true⟩
  Get := Store.get
  Create := Store.create
  Update := Store.update

/-- A spec with the listen port set, an inline CID and nothing optional. -/
def sampleContainer : FalconContainer where
  Name := "default"
  UID := "uid-1"
  Spec :=
    { Falcon := { CID := some "1234", Settings := [] }
      FalconAPI := none
      Injector :=
        { ListenPort := some 4433, ImagePullPolicy := "Always", ImagePullSecretName := "",
          DisableDefaultPodInjection := false, LogVolume := none, SensorResources := none,
          AdditionalEnvironmentVariables := none }
      Registry := { TLS := { CACertificate := "QUJD" } } }

/-- The sample reconciler in front of a cluster whose reads fail for a reason
other than not-found. -/
def offlineReconciler : FalconContainerReconciler Store :=
  { sampleReconciler with Get := fun _ _ => .error ⟨"connection refused", false⟩ }

/-- The sample reconciler with a scheme that does not know the owner kind. -/
def unboundReconciler : FalconContainerReconciler Store :=
  { sampleReconciler with
    controllerReference := fun _ _ => .error ⟨"no kind is registered", false⟩ }

/-- The sample spec with an empty registry CA certificate. -/
def noCAContainer : FalconContainer :=
  { sampleContainer with
    Spec := { sampleContainer.Spec with Registry := { TLS := { CACertificate := "" } } } }

/-- The sample spec with the given inline CID, resolver block and overrides. -/
def sampleWith (cid : Option String) (api : Option FalconAPI) (env : Option StringMap) :
    FalconContainer :=
  { sampleContainer with
    Spec :=
      { sampleContainer.Spec with
        Falcon := { CID := cid, Settings := [] }
        FalconAPI := api
        Injector :=
          { sampleContainer.Spec.Injector with AdditionalEnvironmentVariables := env } } }

/-- The sample spec without a listen port. -/
def noPortContainer : FalconContainer :=
  { sampleContainer with
    Spec :=
      { sampleContainer.Spec with
        Injector := { sampleContainer.Spec.Injector with ListenPort := none } } }

/-- A resolver block with a CID hint, which the sample resolver echoes. -/
def hintedAPI : FalconAPI := ⟨some "RESOLVED", "id", "secret", "us-1"⟩

/-- A resolver block without a CID hint, on which the sample resolver fails. -/
def plainAPI : FalconAPI := ⟨none, "id", "secret", "us-1"⟩

/-- Two overrides whose keys differ only in letter case, `cid` enumerated first. -/
def collidingOverrides : StringMap := (AList.singleton "CID" "2").insert "cid" "1"

/-- The sample spec with the given inline CID, resolver block, log volume,
sensor resources, default-injection flag and overrides. -/
def sampleOptions (cid : Option String) (api : Option FalconAPI) (vol : Option Volume)
    (res : Option ResourceRequirements) (flag : Bool) (env : Option StringMap) :
    FalconContainer :=
  { sampleContainer with
    Spec :=
      { sampleContainer.Spec with
        Falcon := { CID := cid, Settings := [] }
        FalconAPI := api
        Injector :=
          { sampleContainer.Spec.Injector with
            DisableDefaultPodInjection := flag, LogVolume := vol, SensorResources := res,
            AdditionalEnvironmentVariables := env } } }

/-- A log volume the sample encoder rejects. -/
def badVolume : Volume := ⟨"bad"⟩

/-- Some sensor resources. -/
def someResources : ResourceRequirements := ⟨[("cpu", "1")], []⟩

/-- The same spec without inline CID, so that the resolver is consulted. -/
def unresolvableContainer : FalconContainer :=
  sampleOptions none (some plainAPI) (some badVolume) (some someResources) false none

/-- A spec with inline CID and a log volume that the sample encoder rejects,
with the given overrides. -/
def badVolumeContainer (env : Option StringMap) : FalconContainer :=
  sampleOptions (some "1234") none (some badVolume) none false env

/-- The sample spec with the given default-injection flag and overrides. -/
def flagContainer (flag : Bool) (env : Option StringMap) : FalconContainer :=
  sampleOptions (some "1234") none none none flag env

/-- The sample spec with neither an inline CID nor a resolver block. -/
def anonymousContainer : FalconContainer :=
  sampleOptions none none none none false none

/-- The same two overrides, `CID` enumerated first. -/
def collidingOverridesSwapped : StringMap := (AList.singleton "cid" "1").insert "CID" "2"

/-- An override of the customer id key, spelled in lower case. -/
def cidOverride : StringMap := AList.singleton "falconctl_opt_cid" "9999"

/-- The object `newCABundleConfigMap` builds for the sample spec. -/
def sampleCABundle : ConfigMap :=
  { APIVersion := "v1", Kind := "ConfigMap", Name := "falcon-registry-certs",
    Namespace := "falcon-system",
    Labels := some (AList.singleton "crowdstrike.com/provider" "crowdstrike"),
    OwnerReferences := [], ResourceVersion := "",
    Data := some (AList.singleton "tls.crt" "ABC") }

/-- The owner reference of the sample spec. -/
def sampleOwnerRef : OwnerReference :=
  ⟨"falcon.crowdstrike.com/v1alpha1", "FalconContainer", "default", "uid-1", some true,
    some true⟩

/-- A live CA bundle object with the same document and metadata of its own. -/
def liveCABundle : ConfigMap :=
  { sampleCABundle with OwnerReferences := [sampleOwnerRef], ResourceVersion := "7" }

/-- A live CA bundle object with another document. -/
def staleCABundle : ConfigMap :=
  { liveCABundle with
    Data := some ((AList.singleton "tls.crt" "OLD").insert "extra" "x") }

/-! ## Lemmas on maps -/

/-- An entry of a map is what a read of its key returns. -/
theorem StringMap.lookup_of_mem (a : StringMap) (e : Sigma (fun _ : String => String))
    (h : e ∈ a.entries) : a.lookup e.1 = some e.2 := by
  have h2 : e.2 ∈ a.lookup e.1 := AList.mem_lookup_iff.mpr h
  simpa [Option.mem_def] using h2

/-- A map is deeply equal to itself. -/
theorem DeepEqual_self (m : GoMap) : DeepEqual m m = true := by
  cases m with
  | none => rfl
  | some a =>
    simp only [DeepEqual, beq_self_eq_true, Bool.true_and, List.all_eq_true]
    intro e he
    simp [StringMap.lookup_of_mem a e he]

/-- A map has as many keys as entries. -/
theorem StringMap.length_keys (a : StringMap) : a.keys.length = a.entries.length := by
  simp [AList.keys, List.keys]

/-- The comparison `DeepEqual` is equality of maps: same nil-ness and the same value, or absence,
under every key. -/
theorem DeepEqual_iff (m n : GoMap) :
    DeepEqual m n = true ↔ (m.isSome = n.isSome ∧ ∀ k, m.lookup k = n.lookup k) := by
  cases m with
  | none => cases n <;> simp [DeepEqual, GoMap.lookup]
  | some a =>
    cases n with
    | none => simp [DeepEqual]
    | some b =>
      simp only [DeepEqual, Bool.and_eq_true, beq_iff_eq, List.all_eq_true, Option.isSome_some,
        true_and, GoMap.lookup]
      constructor
      · rintro ⟨hlen, hall⟩ k
        have hsub : a.keys ⊆ b.keys := by
          intro x hx
          obtain ⟨v, hv⟩ := Option.isSome_iff_exists.mp (AList.lookup_isSome.mpr
            (AList.mem_keys.mpr hx))
          have hmem : (⟨x, v⟩ : Sigma (fun _ : String => String)) ∈ a.entries :=
            AList.mem_lookup_iff.mp hv
          have hb := hall _ hmem
          exact AList.mem_keys.mp (AList.lookup_isSome.mp (by simp [hb]))
        have hperm : a.keys.Perm b.keys :=
          (List.subperm_of_subset a.keys_nodup hsub).perm_of_length_le
            (by rw [StringMap.length_keys, StringMap.length_keys, hlen])
        cases hk : a.lookup k with
        | some v =>
          have hmem : (⟨k, v⟩ : Sigma (fun _ : String => String)) ∈ a.entries :=
            AList.mem_lookup_iff.mp hk
          exact (hall _ hmem).symm
        | none =>
          have hna : k ∉ a.keys := fun h => AList.lookup_eq_none.mp hk (AList.mem_keys.mpr h)
          have hnb : k ∉ b.keys := fun h => hna (hperm.mem_iff.mpr h)
          exact (AList.lookup_eq_none.mpr (fun h => hnb (AList.mem_keys.mp h))).symm
      · intro hall
        constructor
        · have hperm : a.keys.Perm b.keys := by
            rw [List.perm_ext_iff_of_nodup a.keys_nodup b.keys_nodup]
            intro x
            rw [← AList.mem_keys, ← AList.mem_keys, ← AList.lookup_isSome,
              ← AList.lookup_isSome, hall x]
          have := hperm.length_eq
          rwa [StringMap.length_keys, StringMap.length_keys] at this
        · intro e he
          rw [← hall e.1, StringMap.lookup_of_mem a e he]

/-- The reference is among the owner references after the upsert. -/
theorem mem_upsertOwnerRef (ref : OwnerReference) (l : List OwnerReference) :
    ref ∈ upsertOwnerRef ref l := by
  induction l with
  | nil => simp [upsertOwnerRef]
  | cons o rest ih =>
    unfold upsertOwnerRef
    split <;> simp [ih]

/-! ## The CA bundle builder -/

/-- C6: for a spec whose registry CA certificate is a non-empty valid base64
string, the decoding helper implementing standard base64,
`newCABundleConfigMap` returns without error an object whose document is
exactly the one-entry map from `tls.crt` to the decoded certificate. -/
theorem newCABundleConfigMap_document {σ : Type} (r : FalconContainerReconciler σ)
    (fc : FalconContainer) (decoded : String)
    (hne : fc.Spec.Registry.TLS.CACertificate ≠ "")
    (hvalid : base64Decode fc.Spec.Registry.TLS.CACertificate = some decoded)
    (hhelper : ∀ c d, base64Decode c = some d → r.DecodeBase64Interface c = d) :
    ∃ cm, newCABundleConfigMap r fc = .returned cm none ∧
      cm.Data = some (AList.singleton "tls.crt" decoded) ∧
      cm.Name = r.registryCABundleConfigMapName ∧ cm.Namespace = r.Namespace := by
  have hd := hhelper _ _ hvalid
  simp [newCABundleConfigMap, hne, hd]

/-- C6 at the certificate `QUJD`: the document is exactly `tls.crt ↦ ABC`. -/
theorem newCABundleConfigMap_document_witness :
    (sampleContainer.Spec.Registry.TLS.CACertificate ≠ "" ∧
      base64Decode sampleContainer.Spec.Registry.TLS.CACertificate = some "ABC") ∧
    ∃ cm, newCABundleConfigMap sampleReconciler sampleContainer = .returned cm none ∧
      cm.Data = some (AList.singleton "tls.crt" "ABC") ∧
      cm.Name = sampleReconciler.registryCABundleConfigMapName ∧
      cm.Namespace = sampleReconciler.Namespace :=
  ⟨⟨by decide, by decide⟩,
    newCABundleConfigMap_document sampleReconciler sampleContainer "ABC" (by decide) (by decide)
      (fun c d h => by simp [sampleReconciler, h])⟩

/-- C7: `newCABundleConfigMap` never panics and returns an error exactly when
the CA certificate is the empty string; in that case
`reconcileRegistryCABundleConfigMap` returns an error, issues no write and
leaves the cluster state as it was. -/
theorem newCABundleConfigMap_error_iff {σ : Type} (r : FalconContainerReconciler σ)
    (fc : FalconContainer) (s : σ) :
    newCABundleConfigMap r fc ≠ .panicked ∧
    ((newCABundleConfigMap r fc).failed = true ↔ fc.Spec.Registry.TLS.CACertificate = "") ∧
    (fc.Spec.Registry.TLS.CACertificate = "" →
      (∃ obj err, (reconcileRegistryCABundleConfigMap r fc s).result = .returned obj (some err)) ∧
      (reconcileRegistryCABundleConfigMap r fc s).writes = [] ∧
      (reconcileRegistryCABundleConfigMap r fc s).cluster = s) := by
  by_cases h : fc.Spec.Registry.TLS.CACertificate = ""
  · simp [newCABundleConfigMap, reconcileRegistryCABundleConfigMap, reconcileGenericConfigMap,
      GoResult.failed, h]
  · simp [newCABundleConfigMap, GoResult.failed, h]

/-- C7 on the spec with an empty CA certificate and an empty cluster. -/
theorem newCABundleConfigMap_error_iff_witness :
    noCAContainer.Spec.Registry.TLS.CACertificate = "" ∧
    (∃ obj err, (reconcileRegistryCABundleConfigMap sampleReconciler noCAContainer []).result =
      .returned obj (some err)) ∧
    (reconcileRegistryCABundleConfigMap sampleReconciler noCAContainer []).writes = [] ∧
    (reconcileRegistryCABundleConfigMap sampleReconciler noCAContainer []).cluster = [] :=
  ⟨by decide,
    (newCABundleConfigMap_error_iff sampleReconciler noCAContainer []).2.2 (by decide)⟩

/-! ## The branches of `reconcileGenericConfigMap` -/

/-- C8: after a successful build, when the fetch fails with not-found: if the
owner can be bound, exactly one Create is issued, of the desired object with
the owner reference attached and nothing else changed, no Update is issued, and
the object returned is that object, the one handed to the Create, in the state
the call leaves it, together with the error of the Create; if the owner cannot
be bound, an error is returned and no write is issued. -/
theorem reconcileGenericConfigMap_not_found {σ : Type} (r : FalconContainerReconciler σ)
    (name : String) (genFunc : FalconContainer → GoResult ConfigMap) (fc : FalconContainer)
    (s : σ) (desired : ConfigMap) (e : GoError)
    (hgen : genFunc fc = .returned desired none)
    (hget : r.Get s ⟨name, r.Namespace⟩ = .error e) (hnf : IsNotFound e = true) :
    (∀ ref, r.controllerReference fc desired = .ok ref →
      ∃ bound, bound = { desired with
          OwnerReferences := upsertOwnerRef ref desired.OwnerReferences } ∧
        ref ∈ bound.OwnerReferences ∧
        (reconcileGenericConfigMap r name genFunc fc s).writes = [.Create bound] ∧
        (reconcileGenericConfigMap r name genFunc fc s).result =
          .returned (r.Create s bound).obj (r.Create s bound).err ∧
        (reconcileGenericConfigMap r name genFunc fc s).cluster = (r.Create s bound).cluster) ∧
    (∀ err, r.controllerReference fc desired = .error err →
      (∃ err2, (reconcileGenericConfigMap r name genFunc fc s).result =
        .returned ConfigMap.zero (some err2)) ∧
      (reconcileGenericConfigMap r name genFunc fc s).writes = [] ∧
      (reconcileGenericConfigMap r name genFunc fc s).cluster = s) := by
  constructor
  · intro ref href
    refine ⟨_, rfl, mem_upsertOwnerRef _ _, ?_, ?_, ?_⟩ <;>
      simp [reconcileGenericConfigMap, hgen, hget, hnf, SetControllerReference, href]
  · intro err herr
    simp [reconcileGenericConfigMap, hgen, hget, hnf, SetControllerReference, herr]

/-- C9: after a successful build, when the fetch fails with an error other than
not-found, an error is returned, no write is issued and the cluster state is
unchanged. -/
theorem reconcileGenericConfigMap_query_error {σ : Type} (r : FalconContainerReconciler σ)
    (name : String) (genFunc : FalconContainer → GoResult ConfigMap) (fc : FalconContainer)
    (s : σ) (desired : ConfigMap) (e : GoError)
    (hgen : genFunc fc = .returned desired none)
    (hget : r.Get s ⟨name, r.Namespace⟩ = .error e) (hnf : IsNotFound e = false) :
    (∃ err, (reconcileGenericConfigMap r name genFunc fc s).result =
      .returned ConfigMap.zero (some err)) ∧
    (reconcileGenericConfigMap r name genFunc fc s).writes = [] ∧
    (reconcileGenericConfigMap r name genFunc fc s).cluster = s := by
  simp [reconcileGenericConfigMap, hgen, hget, hnf]

/-- C10: after a successful build, when the fetch succeeds and the desired
document equals the live one, the fetched object is returned as it is, with a
nil error, no write is issued and the cluster state is unchanged. -/
theorem reconcileGenericConfigMap_equal {σ : Type} (r : FalconContainerReconciler σ)
    (name : String) (genFunc : FalconContainer → GoResult ConfigMap) (fc : FalconContainer)
    (s : σ) (desired existing : ConfigMap)
    (hgen : genFunc fc = .returned desired none)
    (hget : r.Get s ⟨name, r.Namespace⟩ = .ok existing)
    (heq : DeepEqual desired.Data existing.Data = true) :
    (reconcileGenericConfigMap r name genFunc fc s).result = .returned existing none ∧
    (reconcileGenericConfigMap r name genFunc fc s).writes = [] ∧
    (reconcileGenericConfigMap r name genFunc fc s).cluster = s := by
  simp [reconcileGenericConfigMap, hgen, hget, heq]

/-- C8 on the sample spec and an empty cluster: one Create of the owner-bound
object, returned as the cluster stamped it with version `1`; and with an
unbindable owner, an error and no write. -/
theorem reconcileGenericConfigMap_not_found_witness :
    (newCABundleConfigMap sampleReconciler sampleContainer = .returned sampleCABundle none ∧
      sampleReconciler.Get [] ⟨"falcon-registry-certs", sampleReconciler.Namespace⟩ =
        .error ⟨"configmaps \"falcon-registry-certs\" not found", true⟩ ∧
      sampleReconciler.controllerReference sampleContainer sampleCABundle = .ok sampleOwnerRef) ∧
    (∃ bound, bound = { sampleCABundle with
        OwnerReferences := upsertOwnerRef sampleOwnerRef sampleCABundle.OwnerReferences } ∧
      sampleOwnerRef ∈ bound.OwnerReferences ∧
      (reconcileGenericConfigMap sampleReconciler "falcon-registry-certs"
        (newCABundleConfigMap sampleReconciler) sampleContainer []).writes =
          [.Create bound] ∧
      (reconcileGenericConfigMap sampleReconciler "falcon-registry-certs"
        (newCABundleConfigMap sampleReconciler) sampleContainer []).result =
          .returned (sampleReconciler.Create [] bound).obj
            (sampleReconciler.Create [] bound).err ∧
      (reconcileGenericConfigMap sampleReconciler "falcon-registry-certs"
        (newCABundleConfigMap sampleReconciler) sampleContainer []).cluster =
          (sampleReconciler.Create [] bound).cluster) ∧
    (sampleReconciler.Create []
        { sampleCABundle with OwnerReferences := [sampleOwnerRef] }).obj =
      { sampleCABundle with OwnerReferences := [sampleOwnerRef], ResourceVersion := "1" } ∧
    (reconcileGenericConfigMap unboundReconciler "falcon-registry-certs"
        (newCABundleConfigMap unboundReconciler) sampleContainer []).writes = [] :=
  ⟨⟨by decide, rfl, rfl⟩,
    (reconcileGenericConfigMap_not_found sampleReconciler "falcon-registry-certs"
      (newCABundleConfigMap sampleReconciler) sampleContainer [] sampleCABundle
      ⟨"configmaps \"falcon-registry-certs\" not found", true⟩ (by decide) rfl rfl).1
      sampleOwnerRef rfl,
    by decide,
    ((reconcileGenericConfigMap_not_found unboundReconciler "falcon-registry-certs"
      (newCABundleConfigMap unboundReconciler) sampleContainer [] sampleCABundle
      ⟨"configmaps \"falcon-registry-certs\" not found", true⟩ (by decide) rfl rfl).2
      ⟨"no kind is registered", false⟩ rfl).2.1⟩

/-- C9 on the sample spec and a cluster that cannot be reached. -/
theorem reconcileGenericConfigMap_query_error_witness :
    (newCABundleConfigMap offlineReconciler sampleContainer = .returned sampleCABundle none ∧
      offlineReconciler.Get [] ⟨"falcon-registry-certs", offlineReconciler.Namespace⟩ =
        .error ⟨"connection refused", false⟩) ∧
    (∃ err, (reconcileGenericConfigMap offlineReconciler "falcon-registry-certs"
        (newCABundleConfigMap offlineReconciler) sampleContainer []).result =
      .returned ConfigMap.zero (some err)) ∧
    (reconcileGenericConfigMap offlineReconciler "falcon-registry-certs"
        (newCABundleConfigMap offlineReconciler) sampleContainer []).writes = [] ∧
    (reconcileGenericConfigMap offlineReconciler "falcon-registry-certs"
        (newCABundleConfigMap offlineReconciler) sampleContainer []).cluster = [] :=
  ⟨⟨by decide, rfl⟩,
    reconcileGenericConfigMap_query_error offlineReconciler "falcon-registry-certs"
      (newCABundleConfigMap offlineReconciler) sampleContainer [] sampleCABundle
      ⟨"connection refused", false⟩ (by decide) rfl rfl⟩

/-- C10 on the sample spec and a cluster holding the same document. -/
theorem reconcileGenericConfigMap_equal_witness :
    (newCABundleConfigMap sampleReconciler sampleContainer = .returned sampleCABundle none ∧
      sampleReconciler.Get [liveCABundle]
        ⟨"falcon-registry-certs", sampleReconciler.Namespace⟩ = .ok liveCABundle ∧
      DeepEqual sampleCABundle.Data liveCABundle.Data = true) ∧
    (reconcileGenericConfigMap sampleReconciler "falcon-registry-certs"
        (newCABundleConfigMap sampleReconciler) sampleContainer [liveCABundle]).result =
      .returned liveCABundle none ∧
    (reconcileGenericConfigMap sampleReconciler "falcon-registry-certs"
        (newCABundleConfigMap sampleReconciler) sampleContainer [liveCABundle]).writes = [] ∧
    (reconcileGenericConfigMap sampleReconciler "falcon-registry-certs"
        (newCABundleConfigMap sampleReconciler) sampleContainer [liveCABundle]).cluster =
      [liveCABundle] :=
  ⟨⟨by decide, rfl, by decide⟩,
    reconcileGenericConfigMap_equal sampleReconciler "falcon-registry-certs"
      (newCABundleConfigMap sampleReconciler) sampleContainer [liveCABundle] sampleCABundle
      liveCABundle (by decide) rfl (by decide)⟩

/-! ## Idempotence and convergence -/

/-- The whole run of the update branch. -/
theorem reconcileGenericConfigMap_run_update {σ : Type} (r : FalconContainerReconciler σ)
    (name : String) (genFunc : FalconContainer → GoResult ConfigMap) (fc : FalconContainer)
    (s : σ) (desired existing : ConfigMap)
    (hgen : genFunc fc = .returned desired none)
    (hget : r.Get s ⟨name, r.Namespace⟩ = .ok existing)
    (hne : DeepEqual desired.Data existing.Data = false) :
    reconcileGenericConfigMap r name genFunc fc s =
      ⟨.returned (r.Update s { existing with Data := desired.Data }).obj
          (r.Update s { existing with Data := desired.Data }).err,
        [.Update { existing with Data := desired.Data }],
        (r.Update s { existing with Data := desired.Data }).cluster⟩ := by
  simp [reconcileGenericConfigMap, hgen, hget, hne]

/-- Without a listen port `newConfigMap` panics, before any resolver call. -/
theorem newConfigMap_no_port {σ : Type} (r : FalconContainerReconciler σ)
    (fc : FalconContainer) (hport : fc.Spec.Injector.ListenPort = none) :
    newConfigMap r fc = ⟨.panicked, []⟩ := by
  simp only [newConfigMap, hport]

/-- With a listen port and the resolver not consulted, `newConfigMap` returns
the document built around the inline customer id. -/
theorem newConfigMap_inline {σ : Type} (r : FalconContainerReconciler σ)
    (fc : FalconContainer) (port : Int) (hport : fc.Spec.Injector.ListenPort = some port)
    (h : fc.Spec.FalconAPI = none ∨ inlineCID fc ≠ "") :
    newConfigMap r fc = ⟨.returned (configMapWithCID r fc port (inlineCID fc)) none, []⟩ := by
  rcases h with h | h
  · simp only [newConfigMap, hport, h]
    rfl
  · cases hapi : fc.Spec.FalconAPI with
    | none =>
      simp only [newConfigMap, hport, hapi]
      rfl
    | some api =>
      have h2 : ¬ (match fc.Spec.Falcon.CID with | some c => c | none => "") = "" := h
      simp only [newConfigMap, hport, hapi, h2, if_false]
      rfl

/-- With a listen port, an empty inline customer id and a resolver configured,
`newConfigMap` makes one resolver call and builds the document around its
answer, or returns its failure. -/
theorem newConfigMap_resolved {σ : Type} (r : FalconContainerReconciler σ)
    (fc : FalconContainer) (port : Int) (api : FalconAPI)
    (hport : fc.Spec.Injector.ListenPort = some port)
    (hapi : fc.Spec.FalconAPI = some api) (hcid : inlineCID fc = "") :
    newConfigMap r fc =
      match r.FalconCID api.CID api.ApiConfig with
      | .error err =>
        ⟨.returned ConfigMap.zero
          (some (Errorf ("unable to determine Falcon customer ID (CID): " ++ err.message))),
          [⟨api.CID, api.ApiConfig⟩]⟩
      | .ok resolved =>
        ⟨.returned (configMapWithCID r fc port resolved) none, [⟨api.CID, api.ApiConfig⟩]⟩ := by
  have h2 : (match fc.Spec.Falcon.CID with | some c => c | none => "") = "" := hcid
  simp only [newConfigMap, hport, hapi, h2, if_true]
  cases r.FalconCID api.CID api.ApiConfig <;> rfl

/-- C4: for a spec with the inline CID absent and a resolver configured, if the
run of `newConfigMap` makes a resolver call that fails, `reconcileConfigMap`
returns an error, issues no Create and no Update and leaves the cluster state
as it was. -/
theorem reconcileConfigMap_resolver_failure {σ : Type} (r : FalconContainerReconciler σ)
    (fc : FalconContainer) (s : σ) (api : FalconAPI) (call : ResolverCall) (e : GoError)
    (hcid : fc.Spec.Falcon.CID = none) (hapi : fc.Spec.FalconAPI = some api)
    (hcall : call ∈ (newConfigMap r fc).resolverCalls)
    (hfail : r.FalconCID call.cid call.config = .error e) :
    (∃ obj err, (reconcileConfigMap r fc s).result = .returned obj (some err)) ∧
    (reconcileConfigMap r fc s).writes = [] ∧
    (reconcileConfigMap r fc s).cluster = s := by
  have hinline : inlineCID fc = "" := by simp [inlineCID, hcid]
  cases hport : fc.Spec.Injector.ListenPort with
  | none => simp [newConfigMap_no_port r fc hport] at hcall
  | some port =>
    have hrun := newConfigMap_resolved r fc port api hport hapi hinline
    cases hres : r.FalconCID api.CID api.ApiConfig with
    | error err =>
      simp only [hres] at hrun
      simp [reconcileConfigMap, reconcileGenericConfigMap, hrun]
    | ok resolved =>
      simp only [hres] at hrun
      simp only [hrun, List.mem_singleton] at hcall
      subst hcall
      simp [hres] at hfail

/-- C4 on the sample spec without inline CID, with a resolver block on which
the sample resolver fails. -/
theorem reconcileConfigMap_resolver_failure_witness :
    ((sampleWith none (some plainAPI) none).Spec.Falcon.CID = none ∧
      (sampleWith none (some plainAPI) none).Spec.FalconAPI = some plainAPI ∧
      (⟨none, plainAPI.ApiConfig⟩ : ResolverCall) ∈
        (newConfigMap sampleReconciler (sampleWith none (some plainAPI) none)).resolverCalls ∧
      sampleReconciler.FalconCID none plainAPI.ApiConfig =
        .error ⟨"falcon api unreachable", false⟩) ∧
    (∃ obj err, (reconcileConfigMap sampleReconciler (sampleWith none (some plainAPI) none)
      [liveCABundle]).result = .returned obj (some err)) ∧
    (reconcileConfigMap sampleReconciler (sampleWith none (some plainAPI) none)
      [liveCABundle]).writes = [] ∧
    (reconcileConfigMap sampleReconciler (sampleWith none (some plainAPI) none)
      [liveCABundle]).cluster = [liveCABundle] :=
  ⟨⟨rfl, rfl, by decide, rfl⟩,
    reconcileConfigMap_resolver_failure sampleReconciler (sampleWith none (some plainAPI) none)
      [liveCABundle] plainAPI ⟨none, plainAPI.ApiConfig⟩ ⟨"falcon api unreachable", false⟩
      rfl rfl (by decide) rfl⟩

/-! ## The overrides -/

/-- Folding the override loop over a list of entries: a key that is the
upper-casing of an entry of the list, or already holds the value, holds the
value at the end, provided every entry upper-casing to it carries that value. -/
theorem foldl_overrides_lookup (up : String → String) (k v : String) :
    ∀ (l : List (Sigma (fun _ : String => String))) (data : StringMap),
      ((⟨k, v⟩ : Sigma (fun _ : String => String)) ∈ l ∨ data.lookup (up k) = some v) →
      (∀ e ∈ l, up e.1 = up k → e.2 = v) →
      (l.foldl (fun d e => d.insert (up e.1) e.2) data).lookup (up k) = some v := by
  intro l
  induction l with
  | nil =>
    intro data h _
    simpa using h
  | cons e t ih =>
    intro data h hall
    simp only [List.foldl_cons]
    apply ih
    · by_cases he : up e.1 = up k
      · right
        have hv : e.2 = v := hall e (List.mem_cons_self _ _) he
        rw [← he, ← hv]
        exact AList.lookup_insert _
      · rcases h with h | h
        · left
          rcases List.mem_cons.mp h with h | h
          · exact absurd (by rw [← h]) he
          · exact h
        · right
          rw [AList.lookup_insert_ne (Ne.symm he)]
          exact h
    · intro x hx
      exact hall x (List.mem_cons_of_mem _ hx)

/-- Folding the override loop leaves alone a key that no entry upper-cases to. -/
theorem foldl_overrides_lookup_other (up : String → String) (key : String) :
    ∀ (l : List (Sigma (fun _ : String => String))) (data : StringMap),
      (∀ e ∈ l, up e.1 ≠ key) →
      (l.foldl (fun d e => d.insert (up e.1) e.2) data).lookup key = data.lookup key := by
  intro l
  induction l with
  | nil => intro data _; rfl
  | cons e t ih =>
    intro data hall
    simp only [List.foldl_cons]
    rw [ih _ (fun x hx => hall x (List.mem_cons_of_mem _ hx)),
      AList.lookup_insert_ne (Ne.symm (hall e (List.mem_cons_self _ _)))]

/-- Every successful build with a listen port is a document built around some
customer id. -/
theorem newConfigMap_returned {σ : Type} (r : FalconContainerReconciler σ)
    (fc : FalconContainer) (cm : ConfigMap)
    (h : (newConfigMap r fc).result = .returned cm none) :
    ∃ port cid, fc.Spec.Injector.ListenPort = some port ∧
      cm = configMapWithCID r fc port cid := by
  cases hport : fc.Spec.Injector.ListenPort with
  | none => simp [newConfigMap_no_port r fc hport] at h
  | some port =>
    by_cases hc : inlineCID fc = ""
    · cases hapi : fc.Spec.FalconAPI with
      | none =>
        rw [newConfigMap_inline r fc port hport (Or.inl hapi)] at h
        simp only [GoResult.returned.injEq, and_true] at h
        exact ⟨port, _, rfl, h.symm⟩
      | some api =>
        rw [newConfigMap_resolved r fc port api hport hapi hc] at h
        cases hres : r.FalconCID api.CID api.ApiConfig with
        | error e => simp [hres] at h
        | ok c =>
          simp only [hres, GoResult.returned.injEq, and_true] at h
          exact ⟨port, _, rfl, h.symm⟩
    · rw [newConfigMap_inline r fc port hport (Or.inr hc)] at h
      simp only [GoResult.returned.injEq, and_true] at h
      exact ⟨port, _, rfl, h.symm⟩

/-- C5 (amended): on every spec on which `newConfigMap` succeeds, for every
entry `(k, v)` of the additional-environment-variable overrides such that no
other override key has the same upper-casing as `k`, the document maps the
upper-cased key to `v`, whatever an earlier step set for that key. -/
theorem newConfigMap_override_wins {σ : Type} (r : FalconContainerReconciler σ)
    (fc : FalconContainer) (cm : ConfigMap) (env : StringMap) (k v : String)
    (hok : (newConfigMap r fc).result = .returned cm none)
    (henv : fc.Spec.Injector.AdditionalEnvironmentVariables = some env)
    (hmem : (⟨k, v⟩ : Sigma (fun _ : String => String)) ∈ env.entries)
    (honly : ∀ k2 ∈ env.keys, r.ToUpper k2 = r.ToUpper k → k2 = k) :
    cm.Data.lookup (r.ToUpper k) = some v := by
  obtain ⟨port, cid, _, hcm⟩ := newConfigMap_returned r fc cm hok
  subst hcm
  simp only [configMapWithCID, documentWithCID, henv, GoMap.lookup, applyOverrides]
  apply foldl_overrides_lookup r.ToUpper k v env.entries _ (Or.inl hmem)
  intro e he hup
  have hk : e.1 = k := honly e.1 (List.mem_keys_of_mem he) hup
  have h1 : env.lookup e.1 = some e.2 := StringMap.lookup_of_mem env e he
  have h2 : env.lookup k = some v := StringMap.lookup_of_mem env ⟨k, v⟩ hmem
  rw [hk, h2] at h1
  exact (Option.some.inj h1).symm

/-- C5 fails as stated: with the overrides `cid ↦ 1` and `CID ↦ 2`, enumerated in
this order, the build succeeds and the document maps `CID` to `2`, not to the
value `1` of the entry `cid`. -/
theorem newConfigMap_override_collision :
    (⟨"cid", "1"⟩ : Sigma (fun _ : String => String)) ∈ collidingOverrides.entries ∧
    (newConfigMap sampleReconciler
      (sampleWith (some "1234") none (some collidingOverrides))).result.succeeded = true ∧
    (newConfigMap sampleReconciler
      (sampleWith (some "1234") none (some collidingOverrides))).result.document.lookup
        (sampleReconciler.ToUpper "cid") = some "2" ∧
    (newConfigMap sampleReconciler
      (sampleWith (some "1234") none (some collidingOverrides))).result.document.lookup
        (sampleReconciler.ToUpper "cid") ≠ some "1" := by
  decide

/-- C5 (amended) on the sample spec with inline CID `1234` and the override
`falconctl_opt_cid ↦ 9999`: the customer id key ends as `9999`. -/
theorem newConfigMap_override_wins_witness :
    ((newConfigMap sampleReconciler (sampleWith (some "1234") none (some cidOverride))).result =
        .returned (configMapWithCID sampleReconciler
          (sampleWith (some "1234") none (some cidOverride)) 4433 "1234") none ∧
      (sampleWith (some "1234") none (some cidOverride)).Spec.Injector.AdditionalEnvironmentVariables
        = some cidOverride ∧
      (⟨"falconctl_opt_cid", "9999"⟩ : Sigma (fun _ : String => String)) ∈ cidOverride.entries ∧
      ∀ k2 ∈ cidOverride.keys,
        sampleReconciler.ToUpper k2 = sampleReconciler.ToUpper "falconctl_opt_cid" →
          k2 = "falconctl_opt_cid") ∧
    (dataBeforeOverrides sampleReconciler (sampleWith (some "1234") none (some cidOverride))
      4433 "1234").lookup "FALCONCTL_OPT_CID" = some "1234" ∧
    sampleReconciler.ToUpper "falconctl_opt_cid" = "FALCONCTL_OPT_CID" ∧
    (configMapWithCID sampleReconciler (sampleWith (some "1234") none (some cidOverride))
      4433 "1234").Data.lookup (sampleReconciler.ToUpper "falconctl_opt_cid") = some "9999" :=
  ⟨⟨by decide, rfl, by decide, by decide⟩, by decide, by decide,
    newConfigMap_override_wins sampleReconciler
      (sampleWith (some "1234") none (some cidOverride))
      (configMapWithCID sampleReconciler (sampleWith (some "1234") none (some cidOverride))
        4433 "1234")
      cidOverride "falconctl_opt_cid" "9999" (by decide) rfl (by decide) (by decide)⟩

/-! ## The inline customer id -/

/-- C3 fails as stated, in three ways: an inline CID that is present but empty
gives way to the resolver; an override of the customer id key replaces the
inline value; and without a listen port the build does not return. -/
theorem newConfigMap_inline_cid_counterexamples :
    ((sampleWith (some "") (some hintedAPI) none).Spec.Falcon.CID = some "" ∧
      (newConfigMap sampleReconciler
        (sampleWith (some "") (some hintedAPI) none)).result.document.lookup
          "FALCONCTL_OPT_CID" = some "RESOLVED" ∧
      (newConfigMap sampleReconciler
        (sampleWith (some "") (some plainAPI) none)).result.failed = true) ∧
    ((sampleWith (some "1234") none (some cidOverride)).Spec.Falcon.CID = some "1234" ∧
      (newConfigMap sampleReconciler
        (sampleWith (some "1234") none (some cidOverride))).result.document.lookup
          "FALCONCTL_OPT_CID" = some "9999") ∧
    (noPortContainer.Spec.Falcon.CID = some "1234" ∧
      (newConfigMap sampleReconciler noPortContainer).result = .panicked) := by
  decide

/-- C3 (amended): for every spec with the listen port set in which the inline
CID is present and non-empty, `newConfigMap` succeeds without calling the
resolver, its run is the same whatever the resolver would answer, and the
customer id key of the document equals the inline value verbatim unless an
additional-environment-variable override upper-cases to that key. -/
theorem newConfigMap_inline_cid {σ : Type} (r : FalconContainerReconciler σ)
    (resolver : Option String → ApiConfig → Except GoError String)
    (fc : FalconContainer) (port : Int) (c : String)
    (hport : fc.Spec.Injector.ListenPort = some port)
    (hcid : fc.Spec.Falcon.CID = some c) (hne : c ≠ "") :
    ∃ cm, (newConfigMap r fc).result = .returned cm none ∧
      (newConfigMap r fc).resolverCalls = [] ∧
      newConfigMap { r with FalconCID := resolver } fc = newConfigMap r fc ∧
      ((∀ env, fc.Spec.Injector.AdditionalEnvironmentVariables = some env →
          ∀ k ∈ env.keys, r.ToUpper k ≠ "FALCONCTL_OPT_CID") →
        cm.Data.lookup "FALCONCTL_OPT_CID" = some c) := by
  have hinline : inlineCID fc = c := by simp [inlineCID, hcid]
  have hne2 : inlineCID fc ≠ "" := by rw [hinline]; exact hne
  refine ⟨configMapWithCID r fc port c, ?_, ?_, ?_, ?_⟩
  · rw [newConfigMap_inline r fc port hport (Or.inr hne2), hinline]
  · rw [newConfigMap_inline r fc port hport (Or.inr hne2)]
  · rw [newConfigMap_inline r fc port hport (Or.inr hne2),
      newConfigMap_inline { r with FalconCID := resolver } fc port hport (Or.inr hne2)]
    rfl
  · intro hov
    have hbase : (dataBeforeOverrides r fc port c).lookup "FALCONCTL_OPT_CID" = some c := by
      unfold dataBeforeOverrides
      simp only
      have h0 : ((dataBeforeCID r fc port).insert "FALCONCTL_OPT_CID" c).lookup
          "FALCONCTL_OPT_CID" = some c := AList.lookup_insert _
      have hlog : "FALCONCTL_OPT_CID" ≠ "FALCON_LOG_VOLUME" := by decide
      have hres : "FALCONCTL_OPT_CID" ≠ "FALCON_RESOURCES" := by decide
      split <;> split <;> (try split) <;> (try split) <;>
        simp only [AList.lookup_insert_ne hlog, AList.lookup_insert_ne hres, h0]
    simp only [configMapWithCID, documentWithCID, GoMap.lookup]
    cases henv : fc.Spec.Injector.AdditionalEnvironmentVariables with
    | none => exact hbase
    | some env =>
      simp only [applyOverrides]
      rw [foldl_overrides_lookup_other r.ToUpper "FALCONCTL_OPT_CID" env.entries _
        (fun e he => hov env henv e.1 (List.mem_keys_of_mem he))]
      exact hbase

/-- C3 (amended) on the sample spec with a resolver block configured: the
customer id key is the inline `1234`, and no resolver call is made. -/
theorem newConfigMap_inline_cid_witness :
    ((sampleWith (some "1234") (some plainAPI) none).Spec.Injector.ListenPort = some 4433 ∧
      (sampleWith (some "1234") (some plainAPI) none).Spec.Falcon.CID = some "1234" ∧
      "1234" ≠ "") ∧
    (newConfigMap sampleReconciler
      (sampleWith (some "1234") (some plainAPI) none)).result.document.lookup
        "FALCONCTL_OPT_CID" = some "1234" ∧
    (newConfigMap sampleReconciler
      (sampleWith (some "1234") (some plainAPI) none)).resolverCalls = [] ∧
    newConfigMap { sampleReconciler with FalconCID := fun _ _ => .ok "OTHER" }
        (sampleWith (some "1234") (some plainAPI) none) =
      newConfigMap sampleReconciler (sampleWith (some "1234") (some plainAPI) none) :=
  ⟨⟨rfl, rfl, by decide⟩,
    match newConfigMap_inline_cid sampleReconciler (fun _ _ => .ok "OTHER")
      (sampleWith (some "1234") (some plainAPI) none) 4433 "1234" rfl rfl (by decide) with
    | ⟨_, hres, hcalls, hsame, hkey⟩ =>
      ⟨by
        rw [hres]
        exact hkey (fun env henv => by simp [sampleWith, sampleContainer] at henv),
        hcalls, hsame⟩⟩

/-! ## The update branch -/

/-- C11: after a successful build, when the fetch succeeds and the desired
document differs from the live one, exactly one Update and no Create is issued;
the object submitted to it is the fetched object with its document replaced by
the whole desired document and every other field (name, namespace, labels,
owner references, version, type meta) as fetched. -/
theorem reconcileGenericConfigMap_differ {σ : Type} (r : FalconContainerReconciler σ)
    (name : String) (genFunc : FalconContainer → GoResult ConfigMap) (fc : FalconContainer)
    (s : σ) (desired existing : ConfigMap)
    (hgen : genFunc fc = .returned desired none)
    (hget : r.Get s ⟨name, r.Namespace⟩ = .ok existing)
    (hne : DeepEqual desired.Data existing.Data = false) :
    ∃ submitted, submitted = { existing with Data := desired.Data } ∧
      (reconcileGenericConfigMap r name genFunc fc s).writes = [.Update submitted] ∧
      submitted.Data = desired.Data ∧
      (∀ k, submitted.Data.lookup k = desired.Data.lookup k) ∧
      submitted.Name = existing.Name ∧ submitted.Namespace = existing.Namespace ∧
      submitted.Labels = existing.Labels ∧
      submitted.OwnerReferences = existing.OwnerReferences ∧
      submitted.ResourceVersion = existing.ResourceVersion ∧
      submitted.APIVersion = existing.APIVersion ∧ submitted.Kind = existing.Kind := by
  refine ⟨_, rfl, ?_, rfl, fun _ => rfl, rfl, rfl, rfl, rfl, rfl, rfl, rfl⟩
  rw [reconcileGenericConfigMap_run_update r name genFunc fc s desired existing hgen hget hne]

/-- C11 on the sample spec against a cluster holding a stale CA bundle with an
extra key: the update submits the live object with the built document, the
extra key gone and the owner reference and version as they were. -/
theorem reconcileGenericConfigMap_differ_witness :
    (newCABundleConfigMap sampleReconciler sampleContainer = .returned sampleCABundle none ∧
      sampleReconciler.Get [staleCABundle]
        ⟨"falcon-registry-certs", sampleReconciler.Namespace⟩ = .ok staleCABundle ∧
      DeepEqual sampleCABundle.Data staleCABundle.Data = false ∧
      staleCABundle.Data.lookup "extra" = some "x") ∧
    ∃ submitted, submitted = { staleCABundle with Data := sampleCABundle.Data } ∧
      (reconcileGenericConfigMap sampleReconciler "falcon-registry-certs"
        (newCABundleConfigMap sampleReconciler) sampleContainer [staleCABundle]).writes =
          [.Update submitted] ∧
      submitted.Data = sampleCABundle.Data ∧
      (∀ k, submitted.Data.lookup k = sampleCABundle.Data.lookup k) ∧
      submitted.Name = staleCABundle.Name ∧ submitted.Namespace = staleCABundle.Namespace ∧
      submitted.Labels = staleCABundle.Labels ∧
      submitted.OwnerReferences = staleCABundle.OwnerReferences ∧
      submitted.ResourceVersion = staleCABundle.ResourceVersion ∧
      submitted.APIVersion = staleCABundle.APIVersion ∧ submitted.Kind = staleCABundle.Kind :=
  ⟨⟨by decide, rfl, by decide, by decide⟩,
    reconcileGenericConfigMap_differ sampleReconciler "falcon-registry-certs"
      (newCABundleConfigMap sampleReconciler) sampleContainer [staleCABundle] sampleCABundle
      staleCABundle (by decide) rfl (by decide)⟩

/-! ## The comparison of documents -/

/-- C12 fails as stated: a nil map and an allocated empty map have the same
(empty) key set and no value under any key, yet `DeepEqual` tells them apart,
in both directions. -/
theorem DeepEqual_nil_empty :
    GoMap.keys none = GoMap.keys (some ∅) ∧
    GoMap.lookup none "tls.crt" = GoMap.lookup (some ∅) "tls.crt" ∧
    DeepEqual none (some ∅) = false ∧ DeepEqual (some ∅) none = false := by
  decide

/-- C12 (amended): `DeepEqual` returns true exactly when the two documents are
both nil or both allocated, have the same key set and the same value under
every key; the order of the entries does not matter. -/
theorem DeepEqual_spec (m n : GoMap) (a b : StringMap) :
    (DeepEqual m n = true ↔
      (m.isSome = n.isSome ∧ (∀ k, k ∈ m.keys ↔ k ∈ n.keys) ∧
        ∀ k, m.lookup k = n.lookup k)) ∧
    (a.entries.Perm b.entries → DeepEqual (some a) (some b) = true) := by
  constructor
  · rw [DeepEqual_iff]
    constructor
    · rintro ⟨hs, hl⟩
      refine ⟨hs, fun k => ?_, hl⟩
      have hk := hl k
      cases m <;> cases n <;> simp_all [GoMap.keys, GoMap.lookup, ← AList.mem_keys,
        ← AList.lookup_isSome]
    · rintro ⟨hs, _, hl⟩
      exact ⟨hs, hl⟩
  · intro hperm
    rw [DeepEqual_iff]
    refine ⟨rfl, fun k => ?_⟩
    simp only [GoMap.lookup, AList.lookup]
    exact List.perm_dlookup k a.nodupKeys b.nodupKeys hperm

/-- C12 (amended) on the two enumerations of the same two entries. -/
theorem DeepEqual_spec_witness :
    collidingOverrides.entries.Perm collidingOverridesSwapped.entries ∧
    collidingOverrides.entries ≠ collidingOverridesSwapped.entries ∧
    DeepEqual (some collidingOverrides) (some collidingOverridesSwapped) = true :=
  ⟨List.Perm.swap _ _ _, by decide,
    (DeepEqual_spec none none collidingOverrides collidingOverridesSwapped).2
      (List.Perm.swap _ _ _)⟩

/-! ## The document of `newConfigMap`, key by key -/

/-- With a listen port, `newConfigMap` returns the document built around the
resolved customer id, or the failure of the resolution. -/
theorem newConfigMap_result {σ : Type} (r : FalconContainerReconciler σ)
    (fc : FalconContainer) (port : Int) (hport : fc.Spec.Injector.ListenPort = some port) :
    (newConfigMap r fc).result =
      match resolveCID r fc with
      | .error err =>
        .returned ConfigMap.zero
          (some (Errorf ("unable to determine Falcon customer ID (CID): " ++ err.message)))
      | .ok cid => .returned (configMapWithCID r fc port cid) none := by
  by_cases hc : inlineCID fc = ""
  · cases hapi : fc.Spec.FalconAPI with
    | none =>
      rw [newConfigMap_inline r fc port hport (Or.inl hapi)]
      simp [resolveCID, hapi]
    | some api =>
      rw [newConfigMap_resolved r fc port api hport hapi hc]
      simp only [resolveCID, hapi, hc, if_true]
      cases r.FalconCID api.CID api.ApiConfig <;> rfl
  · rw [newConfigMap_inline r fc port hport (Or.inr hc)]
    cases hapi : fc.Spec.FalconAPI <;> simp [resolveCID, hapi, hc]

/-- The overrides leave alone a key that none of them is written to. -/
theorem documentWithCID_lookup {σ : Type} (r : FalconContainerReconciler σ)
    (fc : FalconContainer) (port : Int) (cid key : String) (h : NotOverridden r fc key) :
    (documentWithCID r fc port cid).lookup key =
      (dataBeforeOverrides r fc port cid).lookup key := by
  unfold documentWithCID
  cases henv : fc.Spec.Injector.AdditionalEnvironmentVariables with
  | none => rfl
  | some env =>
    simp only [applyOverrides]
    exact foldl_overrides_lookup_other r.ToUpper key env.entries _
      (fun e he => h env henv e.1 (List.mem_keys_of_mem he))

/-- Before the overrides, the namespace key holds the controller namespace. -/
theorem dataBeforeOverrides_namespace {σ : Type} (r : FalconContainerReconciler σ)
    (fc : FalconContainer) (port : Int) (cid : String) :
    (dataBeforeOverrides r fc port cid).lookup "CP_NAMESPACE" = some r.Namespace := by
  unfold dataBeforeOverrides dataBeforeCID
  simp only
  split <;> split <;> (try split) <;> (try split) <;> (try split) <;> (try split) <;> simp

/-- Before the overrides, the port key holds the decimal listen port. -/
theorem dataBeforeOverrides_port {σ : Type} (r : FalconContainerReconciler σ)
    (fc : FalconContainer) (port : Int) (cid : String) :
    (dataBeforeOverrides r fc port cid).lookup "FALCON_INJECTOR_LISTEN_PORT" =
      some (Itoa port) := by
  unfold dataBeforeOverrides dataBeforeCID
  simp only
  split <;> split <;> (try split) <;> (try split) <;> (try split) <;> (try split) <;> simp

/-- Before the overrides, the customer id key holds the resolved customer id. -/
theorem dataBeforeOverrides_cid {σ : Type} (r : FalconContainerReconciler σ)
    (fc : FalconContainer) (port : Int) (cid : String) :
    (dataBeforeOverrides r fc port cid).lookup "FALCONCTL_OPT_CID" = some cid := by
  unfold dataBeforeOverrides dataBeforeCID
  simp only
  split <;> split <;> (try split) <;> (try split) <;> (try split) <;> (try split) <;> simp

/-- Before the overrides, the pull policy key holds the policy of the spec. -/
theorem dataBeforeOverrides_pull_policy {σ : Type} (r : FalconContainerReconciler σ)
    (fc : FalconContainer) (port : Int) (cid : String) :
    (dataBeforeOverrides r fc port cid).lookup "FALCON_IMAGE_PULL_POLICY" =
      some fc.Spec.Injector.ImagePullPolicy := by
  unfold dataBeforeOverrides dataBeforeCID
  simp only
  split <;> split <;> (try split) <;> (try split) <;> (try split) <;> (try split) <;> simp

/-- Before the overrides, the pull secret key holds the secret name of the spec. -/
theorem dataBeforeOverrides_pull_secret {σ : Type} (r : FalconContainerReconciler σ)
    (fc : FalconContainer) (port : Int) (cid : String) :
    (dataBeforeOverrides r fc port cid).lookup "FALCON_IMAGE_PULL_SECRET" =
      some fc.Spec.Injector.ImagePullSecretName := by
  unfold dataBeforeOverrides dataBeforeCID
  simp only
  split <;> split <;> (try split) <;> (try split) <;> (try split) <;> (try split) <;> simp

/-- Before the overrides, the marker key holds `T` when the flag is set and
what the seed map holds otherwise. -/
theorem dataBeforeOverrides_marker {σ : Type} (r : FalconContainerReconciler σ)
    (fc : FalconContainer) (port : Int) (cid : String) :
    (dataBeforeOverrides r fc port cid).lookup "INJECTION_DEFAULT_DISABLED" =
      if fc.Spec.Injector.DisableDefaultPodInjection = true then some "T"
      else (r.MakeSensorEnvMap fc.Spec.Falcon).lookup "INJECTION_DEFAULT_DISABLED" := by
  unfold dataBeforeOverrides dataBeforeCID
  simp only
  cases fc.Spec.Injector.DisableDefaultPodInjection <;>
    simp only [Bool.false_eq_true, if_false, if_true] <;>
    split <;> (try split) <;> (try split) <;> (try split) <;> (try split) <;> simp

/-- Before the overrides, when the log volume is absent or fails to encode the
log volume key holds what the seed map holds. -/
theorem dataBeforeOverrides_log_volume {σ : Type} (r : FalconContainerReconciler σ)
    (fc : FalconContainer) (port : Int) (cid : String)
    (hvol : ∀ v, fc.Spec.Injector.LogVolume = some v →
      ∃ e, r.EncodeBase64Interface (.volume v) = .error e) :
    (dataBeforeOverrides r fc port cid).lookup "FALCON_LOG_VOLUME" =
      (r.MakeSensorEnvMap fc.Spec.Falcon).lookup "FALCON_LOG_VOLUME" := by
  unfold dataBeforeOverrides dataBeforeCID
  simp only
  cases hv : fc.Spec.Injector.LogVolume with
  | none =>
    simp only
    split <;> (try split) <;> (try split) <;> (try split) <;> simp
  | some v =>
    obtain ⟨e, he⟩ := hvol v hv
    simp only [he]
    split <;> (try split) <;> (try split) <;> (try split) <;> simp

/-- Before the overrides, when the sensor resources are absent or fail to
encode the resources key holds what the seed map holds. -/
theorem dataBeforeOverrides_resources {σ : Type} (r : FalconContainerReconciler σ)
    (fc : FalconContainer) (port : Int) (cid : String)
    (hres : ∀ q, fc.Spec.Injector.SensorResources = some q →
      ∃ e, r.EncodeBase64Interface (.resources q) = .error e) :
    (dataBeforeOverrides r fc port cid).lookup "FALCON_RESOURCES" =
      (r.MakeSensorEnvMap fc.Spec.Falcon).lookup "FALCON_RESOURCES" := by
  unfold dataBeforeOverrides dataBeforeCID
  simp only
  cases hq : fc.Spec.Injector.SensorResources with
  | none =>
    simp only
    split <;> (try split) <;> (try split) <;> (try split) <;> simp
  | some q =>
    obtain ⟨e, he⟩ := hres q hq
    simp only [he]
    split <;> (try split) <;> (try split) <;> (try split) <;> simp

/-! ## Failure of the build -/

/-- The inline customer id is empty exactly when it is absent or the empty string. -/
theorem inlineCID_eq_empty (fc : FalconContainer) :
    inlineCID fc = "" ↔ (fc.Spec.Falcon.CID = none ∨ fc.Spec.Falcon.CID = some "") := by
  unfold inlineCID
  cases fc.Spec.Falcon.CID <;> simp

/-- A spec without overrides overrides no key. -/
theorem notOverridden_of_none {σ : Type} (r : FalconContainerReconciler σ)
    (fc : FalconContainer) (key : String)
    (h : fc.Spec.Injector.AdditionalEnvironmentVariables = none) : NotOverridden r fc key := by
  intro env henv
  rw [h] at henv
  cases henv

/-- C14 fails as stated: with a log volume that does not encode, an override
can still supply the log volume key or replace the namespace key; the build
fails when the customer id cannot be resolved; and it does not return without
a listen port. -/
theorem newConfigMap_encode_failure_counterexamples :
    sampleReconciler.EncodeBase64Interface (.volume badVolume) =
      .error ⟨"cannot encode", false⟩ ∧
    ((newConfigMap sampleReconciler (badVolumeContainer
        (some (AList.singleton "falcon_log_volume" "mine")))).result.succeeded = true ∧
      (newConfigMap sampleReconciler (badVolumeContainer
        (some (AList.singleton "falcon_log_volume" "mine")))).result.document.lookup
          "FALCON_LOG_VOLUME" = some "mine") ∧
    ((newConfigMap sampleReconciler (badVolumeContainer
        (some (AList.singleton "cp_namespace" "elsewhere")))).result.document.lookup
          "CP_NAMESPACE" = some "elsewhere" ∧
      sampleReconciler.Namespace ≠ "elsewhere") ∧
    (newConfigMap sampleReconciler unresolvableContainer).result.succeeded = false ∧
    (newConfigMap sampleReconciler
      { badVolumeContainer none with
        Spec := { (badVolumeContainer none).Spec with
          Injector := { (badVolumeContainer none).Spec.Injector with
            ListenPort := none } } }).result.succeeded = false :=
  ⟨rfl, by decide, by decide, by decide, by decide⟩

/-- C14 (amended): for every spec with the listen port set whose log-volume or
sensor-resources structure is present but fails to encode, and whose customer
id resolves, `newConfigMap` succeeds; the key of the failed structure is absent
from the document unless the seed environment map or an override supplies it,
and the customer id, namespace and port keys hold the resolved customer id, the
controller namespace and the decimal listen port, each unless an override is
written to that key. -/
theorem newConfigMap_encode_failure {σ : Type} (r : FalconContainerReconciler σ)
    (fc : FalconContainer) (port : Int) (cid : String)
    (hport : fc.Spec.Injector.ListenPort = some port)
    (hcid : resolveCID r fc = .ok cid)
    (hfail : (∃ v e, fc.Spec.Injector.LogVolume = some v ∧
        r.EncodeBase64Interface (.volume v) = .error e) ∨
      (∃ q e, fc.Spec.Injector.SensorResources = some q ∧
        r.EncodeBase64Interface (.resources q) = .error e)) :
    ∃ cm, (newConfigMap r fc).result = .returned cm none ∧
      ((∃ v e, fc.Spec.Injector.LogVolume = some v ∧
          r.EncodeBase64Interface (.volume v) = .error e) →
        NotSupplied r fc "FALCON_LOG_VOLUME" → cm.Data.lookup "FALCON_LOG_VOLUME" = none) ∧
      ((∃ q e, fc.Spec.Injector.SensorResources = some q ∧
          r.EncodeBase64Interface (.resources q) = .error e) →
        NotSupplied r fc "FALCON_RESOURCES" → cm.Data.lookup "FALCON_RESOURCES" = none) ∧
      (NotOverridden r fc "FALCONCTL_OPT_CID" →
        cm.Data.lookup "FALCONCTL_OPT_CID" = some cid) ∧
      (NotOverridden r fc "CP_NAMESPACE" → cm.Data.lookup "CP_NAMESPACE" = some r.Namespace) ∧
      (NotOverridden r fc "FALCON_INJECTOR_LISTEN_PORT" →
        cm.Data.lookup "FALCON_INJECTOR_LISTEN_PORT" = some (Itoa port)) := by
  have _ := hfail
  refine ⟨configMapWithCID r fc port cid, ?_, ?_, ?_, ?_, ?_, ?_⟩
  · rw [newConfigMap_result r fc port hport, hcid]
  · rintro ⟨v, e, hv, he⟩ ⟨hseed, hov⟩
    simp only [configMapWithCID, GoMap.lookup]
    rw [documentWithCID_lookup r fc port cid _ hov,
      dataBeforeOverrides_log_volume r fc port cid
        (fun v2 hv2 => ⟨e, by rw [hv] at hv2; cases hv2; exact he⟩), hseed]
  · rintro ⟨q, e, hq, he⟩ ⟨hseed, hov⟩
    simp only [configMapWithCID, GoMap.lookup]
    rw [documentWithCID_lookup r fc port cid _ hov,
      dataBeforeOverrides_resources r fc port cid
        (fun q2 hq2 => ⟨e, by rw [hq] at hq2; cases hq2; exact he⟩), hseed]
  · intro hov
    simp only [configMapWithCID, GoMap.lookup]
    rw [documentWithCID_lookup r fc port cid _ hov, dataBeforeOverrides_cid]
  · intro hov
    simp only [configMapWithCID, GoMap.lookup]
    rw [documentWithCID_lookup r fc port cid _ hov, dataBeforeOverrides_namespace]
  · intro hov
    simp only [configMapWithCID, GoMap.lookup]
    rw [documentWithCID_lookup r fc port cid _ hov, dataBeforeOverrides_port]

/-- C14 (amended) on the spec with a log volume the sample encoder rejects and
no override: no log volume key, and the customer id, namespace and port keys
as configured. -/
theorem newConfigMap_encode_failure_witness :
    ((badVolumeContainer none).Spec.Injector.ListenPort = some 4433 ∧
      resolveCID sampleReconciler (badVolumeContainer none) = .ok "1234" ∧
      (badVolumeContainer none).Spec.Injector.LogVolume = some badVolume ∧
      sampleReconciler.EncodeBase64Interface (.volume badVolume) =
        .error ⟨"cannot encode", false⟩) ∧
    (newConfigMap sampleReconciler (badVolumeContainer none)).result.succeeded = true ∧
    (newConfigMap sampleReconciler (badVolumeContainer none)).result.document.lookup
      "FALCON_LOG_VOLUME" = none ∧
    (newConfigMap sampleReconciler (badVolumeContainer none)).result.document.lookup
      "FALCONCTL_OPT_CID" = some "1234" ∧
    (newConfigMap sampleReconciler (badVolumeContainer none)).result.document.lookup
      "CP_NAMESPACE" = some "falcon-system" ∧
    (newConfigMap sampleReconciler (badVolumeContainer none)).result.document.lookup
      "FALCON_INJECTOR_LISTEN_PORT" = some "4433" :=
  ⟨⟨rfl, rfl, rfl, rfl⟩,
    match newConfigMap_encode_failure sampleReconciler (badVolumeContainer none) 4433 "1234"
      rfl rfl (Or.inl ⟨badVolume, _, rfl, rfl⟩) with
    | ⟨_, hres, hvol, _, hcid, hns, hport⟩ =>
      have hno := fun key =>
        notOverridden_of_none sampleReconciler (badVolumeContainer none) key rfl
      ⟨by rw [hres]; rfl,
        by rw [hres]; exact hvol ⟨badVolume, _, rfl, rfl⟩ ⟨by decide, hno _⟩,
        by rw [hres]; exact hcid (hno _),
        by rw [hres]; exact hns (hno _),
        by rw [hres]; exact hport (hno _)⟩⟩

/-! ## The default-injection marker -/

/-- C17 fails as stated: with the flag not set an override spelled
`injection_default_disabled` puts the marker key in the document, and with the
flag set such an override replaces the value `T`. -/
theorem newConfigMap_marker_overridden :
    ((flagContainer false (some (AList.singleton "injection_default_disabled"
        "T"))).Spec.Injector.DisableDefaultPodInjection = false ∧
      (newConfigMap sampleReconciler (flagContainer false
        (some (AList.singleton "injection_default_disabled" "T")))).result.document.lookup
          "INJECTION_DEFAULT_DISABLED" = some "T") ∧
    ((flagContainer true (some (AList.singleton "injection_default_disabled"
        "F"))).Spec.Injector.DisableDefaultPodInjection = true ∧
      (newConfigMap sampleReconciler (flagContainer true
        (some (AList.singleton "injection_default_disabled" "F")))).result.document.lookup
          "INJECTION_DEFAULT_DISABLED" = some "F") := by
  decide

/-- C17 (amended): on every spec on which `newConfigMap` succeeds and in which
no override is written to the marker key, the document holds the marker key
`INJECTION_DEFAULT_DISABLED` with the value `T` if the flag is set, and, if the
flag is not set, does not hold the key unless the seed environment map
supplies it. -/
theorem newConfigMap_injection_marker {σ : Type} (r : FalconContainerReconciler σ)
    (fc : FalconContainer) (cm : ConfigMap)
    (hok : (newConfigMap r fc).result = .returned cm none)
    (hov : NotOverridden r fc "INJECTION_DEFAULT_DISABLED") :
    (fc.Spec.Injector.DisableDefaultPodInjection = true →
      cm.Data.lookup "INJECTION_DEFAULT_DISABLED" = some "T") ∧
    (fc.Spec.Injector.DisableDefaultPodInjection = false →
      (r.MakeSensorEnvMap fc.Spec.Falcon).lookup "INJECTION_DEFAULT_DISABLED" = none →
      cm.Data.lookup "INJECTION_DEFAULT_DISABLED" = none) := by
  obtain ⟨port, cid, _, hcm⟩ := newConfigMap_returned r fc cm hok
  subst hcm
  simp only [configMapWithCID, GoMap.lookup]
  rw [documentWithCID_lookup r fc port cid _ hov, dataBeforeOverrides_marker]
  constructor
  · intro hflag
    simp [hflag]
  · intro hflag hseed
    simp [hflag, hseed]

/-- C17 (amended) on the sample spec without overrides, the flag set and not set. -/
theorem newConfigMap_injection_marker_witness :
    ((newConfigMap sampleReconciler (flagContainer true none)).result =
        .returned (configMapWithCID sampleReconciler (flagContainer true none) 4433 "1234")
          none ∧
      (newConfigMap sampleReconciler (flagContainer false none)).result =
        .returned (configMapWithCID sampleReconciler (flagContainer false none) 4433 "1234")
          none ∧
      (sampleReconciler.MakeSensorEnvMap (flagContainer false none).Spec.Falcon).lookup
        "INJECTION_DEFAULT_DISABLED" = none) ∧
    (configMapWithCID sampleReconciler (flagContainer true none) 4433 "1234").Data.lookup
      "INJECTION_DEFAULT_DISABLED" = some "T" ∧
    (configMapWithCID sampleReconciler (flagContainer false none) 4433 "1234").Data.lookup
      "INJECTION_DEFAULT_DISABLED" = none :=
  ⟨⟨by decide, by decide, by decide⟩,
    (newConfigMap_injection_marker sampleReconciler (flagContainer true none) _ (by decide)
      (notOverridden_of_none sampleReconciler (flagContainer true none) _ rfl)).1 rfl,
    (newConfigMap_injection_marker sampleReconciler (flagContainer false none) _ (by decide)
      (notOverridden_of_none sampleReconciler (flagContainer false none) _ rfl)).2 rfl
      (by decide)⟩

/-! ## The mandatory keys -/

/-- The override loop removes no key. -/
theorem foldl_overrides_isSome (up : String → String) (key : String) :
    ∀ (l : List (Sigma (fun _ : String => String))) (data : StringMap),
      (data.lookup key).isSome = true →
      ((l.foldl (fun d e => d.insert (up e.1) e.2) data).lookup key).isSome = true := by
  intro l
  induction l with
  | nil => intro data h; exact h
  | cons e t ih =>
    intro data h
    simp only [List.foldl_cons]
    apply ih
    by_cases he : key = up e.1
    · rw [he, AList.lookup_insert]
      rfl
    · rw [AList.lookup_insert_ne he]
      exact h

/-- A key set before the overrides is in the document. -/
theorem documentWithCID_isSome {σ : Type} (r : FalconContainerReconciler σ)
    (fc : FalconContainer) (port : Int) (cid key : String)
    (h : ((dataBeforeOverrides r fc port cid).lookup key).isSome = true) :
    ((documentWithCID r fc port cid).lookup key).isSome = true := by
  unfold documentWithCID
  cases fc.Spec.Injector.AdditionalEnvironmentVariables with
  | none => exact h
  | some env => exact foldl_overrides_isSome r.ToUpper key env.entries _ h

/-- C18: for every spec with the listen port set, a document built by
`newConfigMap` holds the keys `CP_NAMESPACE`, `FALCON_INJECTOR_LISTEN_PORT`,
`FALCON_IMAGE_PULL_POLICY`, `FALCON_IMAGE_PULL_SECRET` and `FALCONCTL_OPT_CID`;
and when the inline CID is absent or empty and no resolver block is present,
`newConfigMap` makes no resolver call, returns without error and, unless an
override is written to that key, sets `FALCONCTL_OPT_CID` to the empty string. -/
theorem newConfigMap_mandatory_keys {σ : Type} (r : FalconContainerReconciler σ)
    (fc : FalconContainer) (port : Int) (hport : fc.Spec.Injector.ListenPort = some port) :
    (∀ cm, (newConfigMap r fc).result = .returned cm none →
      (cm.Data.lookup "CP_NAMESPACE").isSome = true ∧
      (cm.Data.lookup "FALCON_INJECTOR_LISTEN_PORT").isSome = true ∧
      (cm.Data.lookup "FALCON_IMAGE_PULL_POLICY").isSome = true ∧
      (cm.Data.lookup "FALCON_IMAGE_PULL_SECRET").isSome = true ∧
      (cm.Data.lookup "FALCONCTL_OPT_CID").isSome = true) ∧
    ((fc.Spec.Falcon.CID = none ∨ fc.Spec.Falcon.CID = some "") →
      fc.Spec.FalconAPI = none →
      (newConfigMap r fc).resolverCalls = [] ∧
      ∃ cm, (newConfigMap r fc).result = .returned cm none ∧
        (NotOverridden r fc "FALCONCTL_OPT_CID" →
          cm.Data.lookup "FALCONCTL_OPT_CID" = some "")) := by
  constructor
  · intro cm hok
    obtain ⟨port2, cid, _, hcm⟩ := newConfigMap_returned r fc cm hok
    subst hcm
    simp only [configMapWithCID, GoMap.lookup]
    refine ⟨?_, ?_, ?_, ?_, ?_⟩ <;> apply documentWithCID_isSome
    · rw [dataBeforeOverrides_namespace]; rfl
    · rw [dataBeforeOverrides_port]; rfl
    · rw [dataBeforeOverrides_pull_policy]; rfl
    · rw [dataBeforeOverrides_pull_secret]; rfl
    · rw [dataBeforeOverrides_cid]; rfl
  · intro hcid hapi
    have hinline : inlineCID fc = "" := (inlineCID_eq_empty fc).mpr hcid
    rw [newConfigMap_inline r fc port hport (Or.inl hapi), hinline]
    refine ⟨rfl, _, rfl, fun hov => ?_⟩
    simp only [configMapWithCID, GoMap.lookup]
    rw [documentWithCID_lookup r fc port "" _ hov, dataBeforeOverrides_cid]

/-- C18 on the sample spec with neither an inline CID nor a resolver block. -/
theorem newConfigMap_mandatory_keys_witness :
    (anonymousContainer.Spec.Injector.ListenPort = some 4433 ∧
      anonymousContainer.Spec.Falcon.CID = none ∧
      anonymousContainer.Spec.FalconAPI = none) ∧
    (newConfigMap sampleReconciler anonymousContainer).resolverCalls = [] ∧
    (newConfigMap sampleReconciler anonymousContainer).result.succeeded = true ∧
    (newConfigMap sampleReconciler anonymousContainer).result.document.lookup
      "FALCONCTL_OPT_CID" = some "" ∧
    ((newConfigMap sampleReconciler anonymousContainer).result.document.lookup
      "CP_NAMESPACE").isSome = true :=
  ⟨⟨rfl, rfl, rfl⟩,
    match (newConfigMap_mandatory_keys sampleReconciler anonymousContainer 4433 rfl).2
      (Or.inl rfl) rfl with
    | ⟨hcalls, _, hres, hcid⟩ =>
      ⟨hcalls, by rw [hres]; rfl,
        by rw [hres]; exact hcid (notOverridden_of_none sampleReconciler anonymousContainer _ rfl),
        by
          rw [hres]
          exact ((newConfigMap_mandatory_keys sampleReconciler anonymousContainer 4433
            rfl).1 _ hres).1⟩⟩

/-! ## The keys of the documents -/

/-- Before the overrides, the empty key holds what the seed map holds. -/
theorem dataBeforeOverrides_empty_key {σ : Type} (r : FalconContainerReconciler σ)
    (fc : FalconContainer) (port : Int) (cid : String) :
    (dataBeforeOverrides r fc port cid).lookup "" =
      (r.MakeSensorEnvMap fc.Spec.Falcon).lookup "" := by
  unfold dataBeforeOverrides dataBeforeCID
  simp only
  split <;> split <;> (try split) <;> (try split) <;> (try split) <;> (try split) <;> simp

/-- C16 fails as stated: the seed map of the sample reconciler has only
non-empty keys, yet an override with the empty key puts the empty key in the
document of a successful build. -/
theorem newConfigMap_empty_key :
    (∀ k ∈ (sampleReconciler.MakeSensorEnvMap
        (flagContainer false (some (AList.singleton "" "x"))).Spec.Falcon).keys, k ≠ "") ∧
    (newConfigMap sampleReconciler
      (flagContainer false (some (AList.singleton "" "x")))).result.succeeded = true ∧
    "" ∈ (newConfigMap sampleReconciler
      (flagContainer false (some (AList.singleton "" "x")))).result.document.keys ∧
    (newConfigMap sampleReconciler
      (flagContainer false (some (AList.singleton "" "x")))).result.document.lookup "" =
        some "x" := by
  decide

/-- C16 (amended): for every spec on which a builder succeeds, every key of the
resulting document is a non-empty string, assuming that the seed sensor
environment map has only non-empty keys and that no override key upper-cases
to the empty string. -/
theorem document_keys_nonempty {σ : Type} (r : FalconContainerReconciler σ)
    (fc : FalconContainer)
    (hseed : ∀ k ∈ (r.MakeSensorEnvMap fc.Spec.Falcon).keys, k ≠ "")
    (hover : NotOverridden r fc "") :
    (∀ cm, (newConfigMap r fc).result = .returned cm none → ∀ k ∈ cm.Data.keys, k ≠ "") ∧
    (∀ cm, newCABundleConfigMap r fc = .returned cm none → ∀ k ∈ cm.Data.keys, k ≠ "") := by
  constructor
  · intro cm hok k hk hempty
    subst hempty
    obtain ⟨port, cid, _, hcm⟩ := newConfigMap_returned r fc cm hok
    subst hcm
    simp only [configMapWithCID, GoMap.keys] at hk
    have hsome : ((documentWithCID r fc port cid).lookup "").isSome = true :=
      AList.lookup_isSome.mpr (AList.mem_keys.mpr hk)
    rw [documentWithCID_lookup r fc port cid _ hover, dataBeforeOverrides_empty_key] at hsome
    exact hseed "" (AList.mem_keys.mp (AList.lookup_isSome.mp hsome)) rfl
  · intro cm hok k hk hempty
    subst hempty
    unfold newCABundleConfigMap at hok
    split at hok
    · simp only [GoResult.returned.injEq, and_true] at hok
      subst hok
      simp [GoMap.keys] at hk
    · simp at hok

/-- C16 (amended) on the sample spec, for both builders. -/
theorem document_keys_nonempty_witness :
    ((∀ k ∈ (sampleReconciler.MakeSensorEnvMap sampleContainer.Spec.Falcon).keys, k ≠ "") ∧
      (newConfigMap sampleReconciler sampleContainer).result =
        .returned (configMapWithCID sampleReconciler sampleContainer 4433 "1234") none ∧
      newCABundleConfigMap sampleReconciler sampleContainer = .returned sampleCABundle none) ∧
    (∀ k ∈ (configMapWithCID sampleReconciler sampleContainer 4433 "1234").Data.keys,
      k ≠ "") ∧
    (∀ k ∈ sampleCABundle.Data.keys, k ≠ "") :=
  ⟨⟨by decide, by decide, by decide⟩,
    (document_keys_nonempty sampleReconciler sampleContainer (by decide)
      (notOverridden_of_none sampleReconciler sampleContainer _ rfl)).1 _ (by decide),
    (document_keys_nonempty sampleReconciler sampleContainer (by decide)
      (notOverridden_of_none sampleReconciler sampleContainer _ rfl)).2 _ (by decide)⟩

/-! ## Determinism of the builder -/

/-- When no two override keys share an upper-casing, the document does not
depend on the order in which the overrides are enumerated. -/
theorem applyOverrides_order (up : String → String) (a b : StringMap) (data : StringMap)
    (hperm : a.entries.Perm b.entries)
    (hinj : ∀ k1 ∈ a.keys, ∀ k2 ∈ a.keys, up k1 = up k2 → k1 = k2) (key : String) :
    (applyOverrides up a data).lookup key = (applyOverrides up b data).lookup key := by
  unfold applyOverrides
  by_cases h : ∃ e ∈ a.entries, up e.1 = key
  · obtain ⟨⟨k, v⟩, he, hk⟩ := h
    simp only at hk
    subst hk
    have hval : ∀ e2 ∈ a.entries, up e2.1 = up k → e2.2 = v := by
      intro e2 he2 hup
      have hk2 : e2.1 = k :=
        hinj e2.1 (List.mem_keys_of_mem he2) k (List.mem_keys_of_mem he) hup
      have h1 : a.lookup e2.1 = some e2.2 := StringMap.lookup_of_mem a e2 he2
      have h2 : a.lookup k = some v := StringMap.lookup_of_mem a ⟨k, v⟩ he
      rw [hk2, h2] at h1
      exact (Option.some.inj h1).symm
    rw [foldl_overrides_lookup up k v a.entries data (Or.inl he) hval,
      foldl_overrides_lookup up k v b.entries data (Or.inl (hperm.mem_iff.mp he))
        (fun e2 he2 => hval e2 (hperm.mem_iff.mpr he2))]
  · have hnone : ∀ e ∈ a.entries, up e.1 ≠ key := fun e he hup => h ⟨e, he, hup⟩
    rw [foldl_overrides_lookup_other up key a.entries data hnone,
      foldl_overrides_lookup_other up key b.entries data
        (fun e he => hnone e (hperm.mem_iff.mpr he))]

/-- C15 at the failing input: the overrides `cid ↦ 1` and `CID ↦ 2` are one map
with two enumerations; the build succeeds under both, with `CID ↦ 2` under the
first and `CID ↦ 1` under the second, and the two documents are not equal. -/
theorem newConfigMap_enumeration_order :
    collidingOverrides.entries.Perm collidingOverridesSwapped.entries ∧
    (newConfigMap sampleReconciler
      (flagContainer false (some collidingOverrides))).result.succeeded = true ∧
    (newConfigMap sampleReconciler
      (flagContainer false (some collidingOverridesSwapped))).result.succeeded = true ∧
    (newConfigMap sampleReconciler
      (flagContainer false (some collidingOverrides))).result.document.lookup "CID" =
        some "2" ∧
    (newConfigMap sampleReconciler
      (flagContainer false (some collidingOverridesSwapped))).result.document.lookup "CID" =
        some "1" ∧
    DeepEqual
      (newConfigMap sampleReconciler
        (flagContainer false (some collidingOverrides))).result.document
      (newConfigMap sampleReconciler
        (flagContainer false (some collidingOverridesSwapped))).result.document = false :=
  ⟨List.Perm.swap _ _ _, by decide, by decide, by decide, by decide, by decide⟩

end Falcon
